import Mathlib

/-!
# ODIM aggregation service: deletion of an aggregation source

A shallow embedding of `svc-aggregation/system/deleteaggregationsource.go`.

* Go strings are Lean strings; positions are counted in characters.  The source
  only takes positions of the ASCII separators "/" and ":" and slices right
  after them, so character and byte positions cut the same pieces.
* A Go call that can panic (failed type assertion, index out of range, nil
  dereference) yields `Result.panicked`.
* The persistent stores are explicit state (`Store`), threaded through every
  call together with the log of emitted notifications and a clock that counts
  collaborator calls.  Everything the outside world decides (injected store
  failures, the plugin liveness probe, the subscription service) is read from an
  `Env`, indexed by the clock, so any pattern of failures can be expressed.
-/

set_option linter.dupNamespace false

namespace ODIM

/-! ## Go `strings` helpers -/

/-- Go `strings.TrimSuffix(s, suffix)`. -/
def TrimSuffix (s suffix : String) : String :=
  if suffix.data.isSuffixOf s.data then ⟨s.data.take (s.data.length - suffix.data.length)⟩ else s

/-- Position of the last character of `s` (scanning from position `i`) that
belongs to `chars`, if any. -/
def lastIndexFrom (chars : List Char) : List Char → Nat → Option Nat
  | [], _ => none
  | c :: cs, i =>
    match lastIndexFrom chars cs (i + 1) with
    | some j => some j
    | none => if c ∈ chars then some i else none

/-- Go `strings.LastIndexAny(s, chars)`: -1 when no character of `chars` occurs. -/
def LastIndexAny (s chars : String) : Int :=
  match lastIndexFrom chars.data s.data 0 with
  | some j => (j : Int)
  | none => -1

/-- Go `strings.LastIndexByte(s, c)`. -/
def LastIndexByte (s : String) (c : Char) : Int :=
  match lastIndexFrom [c] s.data 0 with
  | some j => (j : Int)
  | none => -1

/-- Go slice expression `s[i:]`; `none` is the run-time panic for a bound out of range. -/
def sliceFrom (s : String) (i : Int) : Option String :=
  if 0 ≤ i ∧ i ≤ (s.data.length : Int) then some ⟨s.data.drop i.toNat⟩ else none

/-- Worker of `Split`: `skip` counts the characters of a matched separator still
to be dropped, `acc` is the current piece, reversed. -/
def splitGo (sep : List Char) : List Char → Nat → List Char → List String
  | [], _, acc => [⟨acc.reverse⟩]
  | _ :: cs, skip + 1, acc => splitGo sep cs skip acc
  | c :: cs, 0, acc =>
    if sep.isPrefixOf (c :: cs) then ⟨acc.reverse⟩ :: splitGo sep cs (sep.length - 1) []
    else splitGo sep cs 0 (c :: acc)

/-- Go `strings.Split(s, sep)` for a non-empty separator (every call site passes
a non-empty literal). -/
def Split (s sep : String) : List String := splitGo sep.data s.data 0 []

/-- Does `p` occur in the list as a contiguous block? -/
def containsBlock (p : List Char) : List Char → Bool
  | [] => p.isEmpty
  | c :: cs => p.isPrefixOf (c :: cs) || containsBlock p cs

/-! ## Untyped JSON values (`interface{}`) -/

/-- A decoded JSON document as Go sees it through `interface{}`: a string, a
`map[string]interface{}`, or anything else (number, bool, array, nil). -/
inductive Value where
  | str (s : String)
  | obj (fields : List (String × Value))
  | other

/-- Go type assertion `v.(map[string]interface{})`; `none` is the panic. -/
def Value.asMap : Value → Option (List (String × Value))
  | .obj fields => some fields
  | _ => none

/-- Go map index `m[k]` with the comma-ok form: the value when the key is present. -/
def mapGet (m : List (String × Value)) (k : String) : Option Value :=
  (m.find? (fun p => p.1 = k)).map (fun p => p.2)

/-- Go `m[k].(map[string]interface{})`: an absent key yields nil, whose assertion panics. -/
def mapGetMap (m : List (String × Value)) (k : String) : Option (List (String × Value)) :=
  (mapGet m k).bind Value.asMap

/-- Go `m[k].(string)`: panics (`none`) unless the key holds a string. -/
def mapGetString (m : List (String × Value)) (k : String) : Option String :=
  match mapGet m k with
  | some (.str s) => some s
  | _ => none

/-! ## Errors and responses -/

/-- Modelled from the spec: the error kinds of `lib-utilities/errors` (`errors.ErrType`, not
among the sources), a distinguishable "not found" kind next to generic failures; the workflow
tells only `DBKeyNotFound` apart. -/
inductive ErrType where
  | UndefinedErrorType
  | DBConnFailed
  | DBKeyNotFound
  | DBKeyFetchFailed
  | DBInsertFailed
  | DBUpdateFailed
  | JSONUnmarshalFailed
  deriving DecidableEq, Repr

/-- Modelled from the spec: the record behind a `*errors.Error` (`lib-utilities/errors`, not
among the sources): an error kind and a message. A Go value of that pointer type is an
`Option Error`, `none` being nil. -/
structure Error where
  errNo : ErrType
  errMsg : String
  deriving DecidableEq, Repr

/-- Modelled from the spec: the method call `err.Error()` on a `*errors.Error`. It hands back
the message stored in the record, so a nil receiver is dereferenced and the call panics
(`none`). -/
def callError (err : Option Error) : Option String := err.map (fun e => e.errMsg)

/-- Modelled from the spec: the method call `err.ErrNo()` on a `*errors.Error`. It hands back
the error kind stored in the record, so a nil receiver is dereferenced and the call panics
(`none`). -/
def callErrNo (err : Option Error) : Option ErrType := err.map (fun e => e.errNo)

/-- Modelled from the spec: the status messages of `lib-utilities/response` (not among the
sources) that this file uses; `none` is the zero value (empty string) of a fresh
`response.RPC`. -/
inductive StatusMessage where
  | none
  | ResourceNotFound
  | InternalError
  | ResourceCannotBeDeleted
  | ResourceRemoved
  deriving DecidableEq, Repr

/-- Modelled from the spec: the fields of `response.RPC` (`lib-utilities/response`, not among
the sources) that the deletion workflow decides on; header and body are presentation and left
out. -/
structure RPC where
  StatusCode : Nat
  StatusMessage : StatusMessage
  deriving DecidableEq, Repr

/-- Go `var resp response.RPC`: the zero value. -/
def RPC.zero : RPC := ⟨0, StatusMessage.none⟩

def StatusOK : Nat := 200
def StatusNoContent : Nat := 204
def StatusNotFound : Nat := 404
def StatusNotAcceptable : Nat := 406
def StatusInternalServerError : Nat := 500

/-- Modelled from the spec: `common.GeneralError(statusCode, statusMsg, errMsg, msgArgs, t)`
(`lib-utilities/common`, not among the sources); the response carries the given status code and
status message. -/
def GeneralError (statusCode : Nat) (statusMsg : StatusMessage) : RPC := ⟨statusCode, statusMsg⟩

/-- Modelled from the spec: `resp.CreateInternalErrorResponse(errorMessage)`
(`lib-utilities/response`, not among the sources), which turns `resp` into the 500
InternalError response. -/
def CreateInternalErrorResponse : RPC := ⟨StatusInternalServerError, StatusMessage.InternalError⟩

/-- How a Go call ends: it returns a response, or it panics. -/
inductive Result where
  | returned (resp : RPC)
  | panicked
  deriving DecidableEq, Repr

/-! ## Persisted records -/

/-- Modelled from the spec: record `agmodel.OdataID` (not among the sources), a source ref. -/
structure OdataID where
  OdataID : String
  deriving DecidableEq, Repr

/-- Modelled from the spec: record `agmodel.AggregationSource` (not among the sources); the
handler reads `Links` through type assertions, so it is an `interface{}`. -/
structure AggregationSource where
  HostName : String
  UserName : String
  Links : Value

/-- Modelled from the spec: record `agmodel.ConnectionMethod` (not among the sources), with
`Links.AggregationSources` flattened into one field. -/
structure ConnectionMethod where
  ConnectionMethodType : String
  ConnectionMethodVariant : String
  AggregationSources : List OdataID
  deriving DecidableEq, Repr

/-- Modelled from the spec: record `agmodel.Plugin` (not among the sources), the fields this
file reads. -/
structure Plugin where
  ID : String
  ManagerUUID : String
  Username : String
  Password : String
  deriving DecidableEq, Repr

/-- Modelled from the spec: record `agmodel.Target` (not among the sources), a device
stored in the durable `System` table; the fields this file reads. -/
structure Target where
  DeviceUUID : String
  PluginID : String
  deriving DecidableEq, Repr

/-- Modelled from the spec: record `agmodel.SystemOperation` (not among the sources), the
operation lock. -/
structure SystemOperation where
  Operation : String
  deriving DecidableEq, Repr

/-- A key/value table. -/
abbrev Table (α : Type) := List (String × α)

/-- Read a key. -/
def Table.get {α : Type} (t : Table α) (k : String) : Option α :=
  (t.find? (fun p => p.1 = k)).map (fun p => p.2)

/-- Remove a key. -/
def Table.del {α : Type} (t : Table α) (k : String) : Table α :=
  t.filter (fun p => p.1 ≠ k)

/-- Write a key, replacing what was there. -/
def Table.put {α : Type} (t : Table α) (k : String) (v : α) : Table α :=
  (k, v) :: t.del k

/-- Modelled from the spec: the two-tier key/value store behind `agmodel`, one table per record
kind. `AggregationSource`, `ConnectionMethod`, `Plugin`, `Managers` and `System` are durable;
`ComputerSystem`, `Chassis` and `SystemOperation` live in the fast tier. A `Managers` document
is kept in decoded form. -/
structure Store where
  AggregationSource : Table AggregationSource
  ConnectionMethod : Table ConnectionMethod
  Plugin : Table Plugin
  Managers : Table Value
  System : Table Target
  ComputerSystem : List String
  Chassis : List String
  SystemOperation : Table SystemOperation

/-- A notification handed to `EventNotification(oid, eventType, collectionType)`. -/
structure Event where
  oid : String
  eventType : String
  collectionType : String
  deriving DecidableEq, Repr

/-- The state a call runs in: the store, the notifications emitted so far (oldest first) and
the number of collaborator calls made so far. -/
structure World where
  store : Store
  events : List Event
  clock : Nat

/-- One more collaborator call has been made. -/
def World.tick (w : World) : World := { w with clock := w.clock + 1 }

/-- The store operations the workflow issues, as the failure oracle sees them. -/
inductive Op where
  | GetAggregationSourceInfo (reqURL : String)
  | DeleteAggregationSource (reqURL : String)
  | GetConnectionMethod (id : String)
  | UpdateConnectionMethod (id : String)
  | GetTarget (uuid : String)
  | GetPluginData (pluginID : String)
  | DeletePluginData (pluginID : String)
  | GetResource (table : String) (oid : String)
  | DeleteManagersData (oid : String)
  | GetAllSystems
  | GetAllMatchingDetails (table : String) (pattern : String)
  | GetSystemOperationInfo (key : String)
  | AddSystemOperationInfo (key : String)
  | DeleteSystemOperationInfo (key : String)
  | DeleteComputeSystem (index : Int) (key : String)
  | DeleteSystem (uuid : String)
  deriving DecidableEq, Repr

/-- What `e.DeleteEventSubscription(key)` hands back: a response pointer (its status code, or
nil) and an error (its text, or nil). -/
structure SubResult where
  subResponse : Option Nat
  err : Option String
  deriving DecidableEq, Repr

/-- Everything decided outside this file, indexed by the clock.
* `fault t op`: the store fails operation `op` at time `t` with the given error (connection
  lost, decode failure, ...) and leaves the tables alone.
* `contactPlugin t plugin`: the error of the liveness probe of `plugin`, `none` when it answers.
* `DeleteEventSubscription t key`: the answer of the subscription service.
* `getConnectionMethodVariants variant`: the plugin id encoded in a connection-method variant;
  `none` when decoding the variant panics. -/
structure Env where
  fault : Nat → Op → Option Error
  contactPlugin : Nat → Plugin → Option String
  DeleteEventSubscription : Nat → String → SubResult
  getConnectionMethodVariants : String → Option String

/-- Modelled from the spec: the "not found" error a read or delete of an absent key comes
back with; the wording of its message is of no consequence. -/
def keyNotFound (table key : String) : Error :=
  ⟨ErrType.DBKeyNotFound, "no data with the with key " ++ key ++ " found in " ++ table⟩

/-! ## Store collaborators (`agmodel`) -/

/-- Modelled from the spec: `agmodel.GetAggregationSourceInfo`, a `Get` on the
`AggregationSource` table. -/
def GetAggregationSourceInfo (env : Env) (reqURL : String) (w : World) :
    Except Error AggregationSource × World :=
  match env.fault w.clock (Op.GetAggregationSourceInfo reqURL) with
  | some e => (.error e, w.tick)
  | none =>
    match w.store.AggregationSource.get reqURL with
    | some a => (.ok a, w.tick)
    | none => (.error (keyNotFound "AggregationSource" reqURL), w.tick)

/-- Modelled from the spec: `agmodel.DeleteAggregationSource`, a `Delete` on the
`AggregationSource` table. -/
def agmodel.DeleteAggregationSource (env : Env) (reqURL : String) (w : World) :
    Option Error × World :=
  match env.fault w.clock (Op.DeleteAggregationSource reqURL) with
  | some e => (some e, w.tick)
  | none =>
    match w.store.AggregationSource.get reqURL with
    | some _ =>
      (none, { w.tick with store :=
        { w.store with AggregationSource := w.store.AggregationSource.del reqURL } })
    | none => (some (keyNotFound "AggregationSource" reqURL), w.tick)

/-- Modelled from the spec: `e.GetConnectionMethod`, a `Get` on the `ConnectionMethod` table. -/
def GetConnectionMethod (env : Env) (id : String) (w : World) :
    Except Error ConnectionMethod × World :=
  match env.fault w.clock (Op.GetConnectionMethod id) with
  | some e => (.error e, w.tick)
  | none =>
    match w.store.ConnectionMethod.get id with
    | some c => (.ok c, w.tick)
    | none => (.error (keyNotFound "ConnectionMethod" id), w.tick)

/-- Modelled from the spec: `e.UpdateConnectionMethod`, a `Put` over an existing
`ConnectionMethod` record. -/
def UpdateConnectionMethod (env : Env) (connectionMethod : ConnectionMethod) (id : String)
    (w : World) : Option Error × World :=
  match env.fault w.clock (Op.UpdateConnectionMethod id) with
  | some e => (some e, w.tick)
  | none =>
    match w.store.ConnectionMethod.get id with
    | some _ =>
      (none, { w.tick with store :=
        { w.store with ConnectionMethod := w.store.ConnectionMethod.put id connectionMethod } })
    | none => (some (keyNotFound "ConnectionMethod" id), w.tick)

/-- Modelled from the spec: `agmodel.GetTarget`, the credential record of a device, a `Get` on
the durable `System` table. -/
def GetTarget (env : Env) (uuid : String) (w : World) : Except Error Target × World :=
  match env.fault w.clock (Op.GetTarget uuid) with
  | some e => (.error e, w.tick)
  | none =>
    match w.store.System.get uuid with
    | some t => (.ok t, w.tick)
    | none => (.error (keyNotFound "System" uuid), w.tick)

/-- Modelled from the spec: `agmodel.GetPluginData`, a `Get` on the `Plugin` table. -/
def GetPluginData (env : Env) (pluginID : String) (w : World) : Except Error Plugin × World :=
  match env.fault w.clock (Op.GetPluginData pluginID) with
  | some e => (.error e, w.tick)
  | none =>
    match w.store.Plugin.get pluginID with
    | some p => (.ok p, w.tick)
    | none => (.error (keyNotFound "Plugin" pluginID), w.tick)

/-- Modelled from the spec: `agmodel.DeletePluginData`, a `Delete` on the `Plugin` table. -/
def DeletePluginData (env : Env) (pluginID : String) (w : World) : Option Error × World :=
  match env.fault w.clock (Op.DeletePluginData pluginID) with
  | some e => (some e, w.tick)
  | none =>
    match w.store.Plugin.get pluginID with
    | some _ =>
      (none, { w.tick with store := { w.store with Plugin := w.store.Plugin.del pluginID } })
    | none => (some (keyNotFound "Plugin" pluginID), w.tick)

/-- Modelled from the spec: `agmodel.GetResource("Managers", oid)`, a `Get` on the `Managers`
table. -/
def GetResource (env : Env) (oid : String) (w : World) : Except Error Value × World :=
  match env.fault w.clock (Op.GetResource "Managers" oid) with
  | some e => (.error e, w.tick)
  | none =>
    match w.store.Managers.get oid with
    | some d => (.ok d, w.tick)
    | none => (.error (keyNotFound "Managers" oid), w.tick)

/-- Modelled from the spec: `agmodel.DeleteManagersData`, a `Delete` on the `Managers` table. -/
def DeleteManagersData (env : Env) (oid : String) (w : World) : Option Error × World :=
  match env.fault w.clock (Op.DeleteManagersData oid) with
  | some e => (some e, w.tick)
  | none =>
    match w.store.Managers.get oid with
    | some _ =>
      (none, { w.tick with store := { w.store with Managers := w.store.Managers.del oid } })
    | none => (some (keyNotFound "Managers" oid), w.tick)

/-- Modelled from the spec: `agmodel.GetAllSystems`, every record of the durable `System`
table. -/
def GetAllSystems (env : Env) (w : World) : Except Error (List Target) × World :=
  match env.fault w.clock Op.GetAllSystems with
  | some e => (.error e, w.tick)
  | none => (.ok (w.store.System.map (fun p => p.2)), w.tick)

/-- The keys of a fast-tier table. -/
def Store.keysOf (s : Store) (table : String) : List String :=
  if table = "ComputerSystem" then s.ComputerSystem
  else if table = "Chassis" then s.Chassis
  else []

/-- Modelled from the spec: `agmodel.GetAllMatchingDetails(table, pattern, common.InMemory)`,
the keys of a fast-tier table in which `pattern` occurs. On failure the list is empty. -/
def GetAllMatchingDetails (env : Env) (table pattern : String) (w : World) :
    (List String × Option Error) × World :=
  match env.fault w.clock (Op.GetAllMatchingDetails table pattern) with
  | some e => (([], some e), w.tick)
  | none =>
    (((w.store.keysOf table).filter (fun k => containsBlock pattern.data k.data), none), w.tick)

/-- Modelled from the spec: `agmodel.GetSystemOperationInfo`, a `Get` of the lock record; on
any error the record handed back is the zero value. -/
def GetSystemOperationInfo (env : Env) (key : String) (w : World) :
    (SystemOperation × Option Error) × World :=
  match env.fault w.clock (Op.GetSystemOperationInfo key) with
  | some e => ((⟨""⟩, some e), w.tick)
  | none =>
    match w.store.SystemOperation.get key with
    | some so => ((so, none), w.tick)
    | none => ((⟨""⟩, some (keyNotFound "SystemOperation" key)), w.tick)

/-- Modelled from the spec: `systemOperation.AddSystemOperationInfo(key)`, a `Put` of the lock
record. -/
def AddSystemOperationInfo (env : Env) (systemOperation : SystemOperation) (key : String)
    (w : World) : Option Error × World :=
  match env.fault w.clock (Op.AddSystemOperationInfo key) with
  | some e => (some e, w.tick)
  | none =>
    (none, { w.tick with store :=
      { w.store with SystemOperation := w.store.SystemOperation.put key systemOperation } })

/-- Modelled from the spec: `agmodel.DeleteSystemOperationInfo`, a `Delete` of the lock
record. -/
def DeleteSystemOperationInfo (env : Env) (key : String) (w : World) : Option Error × World :=
  match env.fault w.clock (Op.DeleteSystemOperationInfo key) with
  | some e => (some e, w.tick)
  | none =>
    match w.store.SystemOperation.get key with
    | some _ =>
      (none, { w.tick with store :=
        { w.store with SystemOperation := w.store.SystemOperation.del key } })
    | none => (some (keyNotFound "SystemOperation" key), w.tick)

/-- Modelled from the spec: `e.DeleteComputeSystem(index, key)`, the `Delete` of the compute
system record from the fast tier. -/
def DeleteComputeSystem (env : Env) (index : Int) (key : String) (w : World) :
    Option Error × World :=
  match env.fault w.clock (Op.DeleteComputeSystem index key) with
  | some e => (some e, w.tick)
  | none =>
    if key ∈ w.store.ComputerSystem then
      (none, { w.tick with store :=
        { w.store with ComputerSystem := w.store.ComputerSystem.filter (fun k => k ≠ key) } })
    else (some (keyNotFound "ComputerSystem" key), w.tick)

/-- Modelled from the spec: `e.DeleteSystem(uuid)`, the `Delete` of the system record from the
durable tier, by uuid. -/
def DeleteSystem (env : Env) (uuid : String) (w : World) : Option Error × World :=
  match env.fault w.clock (Op.DeleteSystem uuid) with
  | some e => (some e, w.tick)
  | none =>
    match w.store.System.get uuid with
    | some _ =>
      (none, { w.tick with store := { w.store with System := w.store.System.del uuid } })
    | none => (some (keyNotFound "System" uuid), w.tick)

/-- The call `e.DeleteEventSubscription(key)`: answered by the subscription service, an
outside collaborator that does not touch this store. -/
def DeleteEventSubscription (env : Env) (key : String) (w : World) : SubResult × World :=
  (env.DeleteEventSubscription w.clock key, w.tick)

/-- The call `contactPlugin(req, msg)` with `req.OID = "/ODIM/v1/Status"`: only its error is
read. -/
def contactPlugin (env : Env) (plugin : Plugin) (w : World) : Option String × World :=
  (env.contactPlugin w.clock plugin, w.tick)

/-- The call `e.EventNotification(oid, eventType, collectionType)`: fire and forget. -/
def EventNotification (oid eventType collectionType : String) (w : World) : World :=
  { w with events := w.events ++ [⟨oid, eventType, collectionType⟩] }

/-! ## The workflow (`deleteaggregationsource.go`) -/

/-- The recurring error mapping of the source,
`errMsg := err.Error(); if errors.DBKeyNotFound == err.ErrNo() ... 404 ... else ... 500`,
for the error variable `err` the source text reads at that place. Reading a nil `err` panics. -/
def errorResponse (err : Option Error) : Result :=
  match callError err, callErrNo err with
  | some _, some errNo =>
    if ErrType.DBKeyNotFound = errNo then
      .returned (GeneralError StatusNotFound .ResourceNotFound)
    else .returned (GeneralError StatusInternalServerError .InternalError)
  | _, _ => .panicked

/-- Go `removeAggregationSource`: the loop appends every `val != element` to `elements`. -/
def removeAggregationSource (slice : List OdataID) (element : OdataID) : List OdataID :=
  slice.foldl (fun elements val => if val ≠ element then elements ++ [val] else elements) []

/-- Go `deletePlugin` (lines 199-297). -/
def deletePlugin (env : Env) (oid : String) (w : World) : Result × World :=
  match GetResource env oid w with
  | (data, w) =>
    match data with
    | .error e => (errorResponse (some e), w)
    | .ok data =>
      -- past this point the variable `derr` is nil
      let derr : Option Error := none
      -- json.Unmarshal into a map, then resource["Name"].(string)
      match mapGetString (data.asMap.getD []) "Name" with
      | none => (.panicked, w)
      | some pluginID =>
        match GetPluginData env pluginID w with
        | (plugin, w) =>
          match plugin with
          | .error _ => (.returned (GeneralError StatusNotFound .ResourceNotFound), w)
          | .ok plugin =>
            match GetAllSystems env w with
            | (systems, w) =>
              match systems with
              | .error _ => (errorResponse derr, w)
              | .ok systems =>
                let systemCnt := systems.countP (fun t => t.PluginID = pluginID)
                if systemCnt > 0 then
                  (.returned (GeneralError StatusNotAcceptable .ResourceCannotBeDeleted), w)
                else
                  match contactPlugin env plugin w with
                  | (err, w) =>
                    match err with
                    | none =>
                      -- no err means plugin is still up, so we can't remove it
                      (.returned (GeneralError StatusNotAcceptable .ResourceCannotBeDeleted), w)
                    | some _ =>
                      match DeleteManagersData env oid w with
                      | (dberr, w) =>
                        match dberr with
                        | some _ => (errorResponse derr, w)
                        | none =>
                          match DeletePluginData env pluginID w with
                          | (dberr, w) =>
                            match dberr with
                            | some _ => (errorResponse derr, w)
                            | none =>
                              (.returned ⟨StatusOK, .ResourceRemoved⟩,
                                EventNotification oid "ResourceRemoved" "ManagerCollection" w)

/-- Go `deleteCompute` from line 323 on: what runs once the lock record is written and its
deferred release is registered. -/
def deleteComputeLocked (env : Env) (key : String) (index : Int) (w : World) : Result × World :=
  match DeleteEventSubscription env key w with
  | (sub, w) =>
    if sub.err.isSome ∧ sub.subResponse.isNone then
      (.returned (GeneralError StatusInternalServerError .InternalError), w)
    else
      match sub.subResponse with
      | none => (.panicked, w)
      | some _ =>
        -- a status code other than 204 is logged only: the comment of lines 330-331 announces
        -- a return with error, the statement of lines 332-334 logs and goes on
        match sliceFrom key (index + 1) with
        | none => (.panicked, w)
        | some rest =>
          let k := Split rest ":"
          if k.length < 2 then
            (.returned (GeneralError StatusInternalServerError .InternalError), w)
          else
            let uuid := k.headD ""
            match GetAllMatchingDetails env "Chassis" uuid w with
            | ((chassisList, _), w) =>
              match DeleteComputeSystem env index key w with
              | (derr, w) =>
                match derr with
                | some derr => (errorResponse (some derr), w)
                | none =>
                  match DeleteSystem env uuid w with
                  | (derr, w) =>
                    match derr with
                    | some derr => (errorResponse (some derr), w)
                    | none =>
                      (.returned ⟨StatusOK, .ResourceRemoved⟩,
                        EventNotification key "ResourceRemoved" "SystemsCollection"
                          (chassisList.foldl
                            (fun w chassis =>
                              EventNotification chassis "ResourceRemoved" "ChassisCollection" w)
                            w))

/-- Go `deleteCompute` (lines 299-386). The deferred `DeleteSystemOperationInfo` runs on every
exit after its registration, panics included; its error is dropped. -/
def deleteCompute (env : Env) (key : String) (index : Int) (w : World) : Result × World :=
  match GetSystemOperationInfo env (TrimSuffix key "/") w with
  | ((systemOperation, dbErr), w) =>
    if dbErr.isSome ∧ callErrNo dbErr ≠ some ErrType.DBKeyNotFound then
      (.returned (GeneralError StatusInternalServerError .InternalError), w)
    else if systemOperation.Operation ≠ "" then
      (.returned (GeneralError StatusNotAcceptable .ResourceCannotBeDeleted), w)
    else
      match AddSystemOperationInfo env { systemOperation with Operation := "Delete" }
          (TrimSuffix key "/") w with
      | (dbErr, w) =>
        match dbErr with
        | some _ => (.returned (GeneralError StatusInternalServerError .InternalError), w)
        | none =>
          match deleteComputeLocked env key index w with
          | (r, w) => (r, (DeleteSystemOperationInfo env (TrimSuffix key "/") w).2)

/-- The loop `for _, systemURI := range systemList` (lines 73-76 and 147-150): `resp` is the
loop variable overwritten by every iteration; a panic leaves the loop. -/
def deleteComputeEach (env : Env) : List String → RPC → World → Result × World
  | [], resp, w => (.returned resp, w)
  | systemURI :: rest, _, w =>
    match deleteCompute env systemURI (LastIndexAny systemURI "/") w with
    | (r, w) =>
      match r with
      | .panicked => (.panicked, w)
      | .returned resp => deleteComputeEach env rest resp w

/-- Where a branch of the handler leaves control: it returned (or panicked), or it goes on
to the status check with the current `resp`. -/
inductive Flow where
  | ret (r : Result)
  | go (resp : RPC)

/-- The fan-out branch, lines 63-76 and again lines 137-150 (same text). -/
def deleteMatchingSystems (env : Env) (url : String) (w : World) : Flow × World :=
  match (Split url "/redfish/v1/AggregationService/AggregationSources/")[1]? with
  | none => (.ret .panicked, w)
  | some id =>
    match GetAllMatchingDetails env "ComputerSystem" id w with
    | ((systemList, dbErr), w) =>
      match dbErr with
      | some dbErr => (.ret (errorResponse (some dbErr)), w)
      | none =>
        match deleteComputeEach env systemList RPC.zero w with
        | (r, w) =>
          match r with
          | .panicked => (.ret .panicked, w)
          | .returned resp => (.go resp, w)

/-- The plugin branch, lines 54-61 and again lines 128-135: fetch the plugin, then
`deletePlugin` on its manager. -/
def deletePluginOf (env : Env) (pluginID : String) (w : World) : Flow × World :=
  match GetPluginData env pluginID w with
  | (plugin, w) =>
    match plugin with
    | .error _ => (.ret (.returned (GeneralError StatusNotFound .ResourceNotFound)), w)
    | .ok plugin =>
      match deletePlugin env ("/redfish/v1/Managers/" ++ plugin.ManagerUUID) w with
      | (r, w) =>
        match r with
        | .panicked => (.ret .panicked, w)
        | .returned resp => (.go resp, w)

/-- Lines 78-102 of `DeleteAggregationSource`: the status check, the removal of the
aggregation source record and the final response. -/
def finishDeleteAggregationSource (env : Env) (reqURL : String) (resp : RPC) (w : World) :
    Result × World :=
  if resp.StatusCode ≠ StatusOK then (.returned resp, w)
  else
    match agmodel.DeleteAggregationSource env reqURL w with
    | (dbErr, w) =>
      match dbErr with
      | some _ => (.returned CreateInternalErrorResponse, w)
      | none => (.returned ⟨StatusNoContent, .ResourceRemoved⟩, w)

/-- Lines 152-183 of `deleteAggregationSourceWithConnectionMethod`: the status check, the
removal of the aggregation source record, the back-reference update and the final response. -/
def finishWithConnectionMethod (env : Env) (url : String) (connectionMethod : ConnectionMethod)
    (connectionMethodOdataID : String) (resp : RPC) (w : World) : Result × World :=
  if resp.StatusCode ≠ StatusOK then (.returned resp, w)
  else
    match agmodel.DeleteAggregationSource env url w with
    | (dbErr, w) =>
      match dbErr with
      | some _ => (.returned CreateInternalErrorResponse, w)
      | none =>
        match UpdateConnectionMethod env
            { connectionMethod with AggregationSources :=
                removeAggregationSource connectionMethod.AggregationSources ⟨url⟩ }
            connectionMethodOdataID w with
        | (dbErr, w) =>
          match dbErr with
          | some _ => (.returned (GeneralError StatusInternalServerError .InternalError), w)
          | none => (.returned ⟨StatusNoContent, .ResourceRemoved⟩, w)

/-- Go `deleteAggregationSourceWithConnectionMethod` (lines 105-184). -/
def deleteAggregationSourceWithConnectionMethod (env : Env) (url : String)
    (connectionMethodLink : List (String × Value)) (w : World) : Result × World :=
  match mapGetString connectionMethodLink "@odata.id" with
  | none => (.panicked, w)
  | some connectionMethodOdataID =>
    match GetConnectionMethod env connectionMethodOdataID w with
    | (connectionMethod, w) =>
      match connectionMethod with
      | .error err => (errorResponse (some err), w)
      | .ok connectionMethod =>
        match sliceFrom url (LastIndexByte url '/' + 1) with
        | none => (.panicked, w)
        | some uuid =>
          match GetTarget env uuid w with
          | (target, w) =>
            match target with
            | .error _ =>
              match env.getConnectionMethodVariants connectionMethod.ConnectionMethodVariant with
              | none => (.panicked, w)
              | some pluginID =>
                if connectionMethod.AggregationSources.length > 1 then
                  (.returned (GeneralError StatusNotAcceptable .ResourceCannotBeDeleted), w)
                else
                  match deletePluginOf env pluginID w with
                  | (flow, w) =>
                    match flow with
                    | .ret r => (r, w)
                    | .go resp =>
                      finishWithConnectionMethod env url connectionMethod
                        connectionMethodOdataID resp w
            | .ok _ =>
              match deleteMatchingSystems env url w with
              | (flow, w) =>
                match flow with
                | .ret r => (r, w)
                | .go resp =>
                  finishWithConnectionMethod env url connectionMethod
                    connectionMethodOdataID resp w

/-- Go `DeleteAggregationSource` (lines 32-103); `reqURL` is `req.URL`. -/
def DeleteAggregationSource (env : Env) (reqURL : String) (w : World) : Result × World :=
  match GetAggregationSourceInfo env reqURL w with
  | (aggregationSource, w) =>
    match aggregationSource with
    | .error dbErr => (errorResponse (some dbErr), w)
    | .ok aggregationSource =>
      match aggregationSource.Links.asMap with
      | none => (.panicked, w)
      | some links =>
        match mapGet links "ConnectionMethod" with
        | some connectionMethod =>
          match connectionMethod.asMap with
          | none => (.panicked, w)
          | some connectionMethodLink =>
            deleteAggregationSourceWithConnectionMethod env reqURL connectionMethodLink w
        | none =>
          match mapGetMap links "Oem" with
          | none => (.panicked, w)
          | some oem =>
            match mapGet oem "PluginType" with
            | some _ =>
              match mapGetString oem "PluginID" with
              | none => (.panicked, w)
              | some pluginID =>
                match deletePluginOf env pluginID w with
                | (flow, w) =>
                  match flow with
                  | .ret r => (r, w)
                  | .go resp => finishDeleteAggregationSource env reqURL resp w
            | none =>
              match deleteMatchingSystems env reqURL w with
              | (flow, w) =>
                match flow with
                | .ret r => (r, w)
                | .go resp => finishDeleteAggregationSource env reqURL resp w

/-! ## Vocabulary of the specification -/

/-- The three kinds of aggregation source (resolver of the specification). -/
inductive Category where
  | ConnectionMethodManaged (connectionMethodLink : List (String × Value))
  | OemPluginManaged (pluginID : String)
  | Unmanaged

/-- The kind of a source as lines 45-53 of `DeleteAggregationSource` read it off `Links`;
`none` when one of the type assertions on the way panics. -/
def classify (links : Value) : Option Category :=
  match links.asMap with
  | none => none
  | some links =>
    match mapGet links "ConnectionMethod" with
    | some connectionMethod => connectionMethod.asMap.map Category.ConnectionMethodManaged
    | none =>
      match mapGetMap links "Oem" with
      | none => none
      | some oem =>
        match mapGet oem "PluginType" with
        | some _ => (mapGetString oem "PluginID").map Category.OemPluginManaged
        | none => some Category.Unmanaged

/-- The store carries out every operation of `ops` whenever it is asked to: no failure is
injected on them. -/
def Env.succeeds (env : Env) (ops : List Op) : Prop :=
  ∀ t, ∀ op ∈ ops, env.fault t op = none

/-- The status code of a returned response is one of `codes`; nothing is said of a panic. -/
def Result.codeIn (r : Result) (codes : List Nat) : Prop :=
  match r with
  | .returned resp => resp.StatusCode ∈ codes
  | .panicked => True

/-- The status code carried by a `Flow` is one of `codes`. -/
def Flow.codeIn (f : Flow) (codes : List Nat) : Prop :=
  match f with
  | .ret r => r.codeIn codes
  | .go resp => resp.StatusCode ∈ codes

/-- The world after `deleteCompute` has run on each key of `keys`, one after the other in
list order, each call starting where the previous one ended. -/
def deleteComputeRun (env : Env) (keys : List String) (w : World) : World :=
  keys.foldl (fun v key => (deleteCompute env key (LastIndexAny key "/") v).2) w

/-- The `Name` of a decoded `Managers` document, as `deletePlugin` reads it. -/
def managerName (data : Value) : Option String := mapGetString (data.asMap.getD []) "Name"

/-! ## Example data -/

/-- An environment in which the store never fails, every plugin is unreachable and the
subscription service answers 204. -/
def envQuiet : Env :=
  { fault := fun _ _ => none
    contactPlugin := fun _ _ => some "connection refused"
    DeleteEventSubscription := fun _ _ => ⟨some 204, none⟩
    getConnectionMethodVariants := fun _ => some "GRF" }

/-- As `envQuiet`, but every plugin answers the liveness probe. -/
def envAlive : Env := { envQuiet with contactPlugin := fun _ _ => none }

/-- As `envQuiet`, but the subscription service is unreachable: an error and no response. -/
def envNoSubscriptionService : Env :=
  { envQuiet with DeleteEventSubscription := fun _ _ => ⟨none, some "rpc error"⟩ }

/-- As `envQuiet`, but the subscription service answers with status 500 and no error. -/
def envSubscriptionStatus500 : Env :=
  { envQuiet with DeleteEventSubscription := fun _ _ => ⟨some 500, none⟩ }

/-- As `envQuiet`, but the subscription service answers with status 500 and reports an error
as well. -/
def envSubscriptionErrorAndResponse : Env :=
  { envQuiet with
    DeleteEventSubscription := fun _ _ => ⟨some 500, some "delete event subscription failed"⟩ }

/-- As `envQuiet`, but the store fails every write of a lock record. -/
def envLockWriteFails : Env :=
  { envQuiet with
    fault := fun _ op =>
      match op with
      | Op.AddSystemOperationInfo _ => some ⟨ErrType.DBInsertFailed, "insert failed"⟩
      | _ => none }

/-- As `envQuiet`, but the store fails every delete of a `Managers` record with `e`. -/
def envManagerDeleteFails (e : Error) : Env :=
  { envQuiet with
    fault := fun _ op =>
      match op with
      | Op.DeleteManagersData _ => some e
      | _ => none }

/-- As `envQuiet`, but the store fails every delete of a `Plugin` record with `e`. -/
def envPluginDeleteFails (e : Error) : Env :=
  { envQuiet with
    fault := fun _ op =>
      match op with
      | Op.DeletePluginData _ => some e
      | _ => none }

def urlAB : String := "/redfish/v1/AggregationService/AggregationSources/ab"

def urlPlugin : String := "/redfish/v1/AggregationService/AggregationSources/p1"

def keyAB : String := "/redfish/v1/Systems/ab:1"

def connectionMethodID : String := "/redfish/v1/AggregationService/ConnectionMethods/c1"

/-- An unmanaged source `ab` with one compute system `ab:1` and its chassis. -/
def storeUnmanaged : Store :=
  { AggregationSource := [(urlAB, ⟨"10.0.0.1", "admin", .obj [("Oem", .obj [])]⟩)]
    ConnectionMethod := []
    Plugin := []
    Managers := []
    System := [("ab", ⟨"ab", "GRF"⟩)]
    ComputerSystem := [keyAB]
    Chassis := ["/redfish/v1/Chassis/ab:1"]
    SystemOperation := [] }

def worldUnmanaged : World := ⟨storeUnmanaged, [], 0⟩

/-- As `worldUnmanaged`, with a reset of `ab:1` in progress. -/
def worldLocked : World :=
  ⟨{ storeUnmanaged with SystemOperation := [(keyAB, ⟨"Reset"⟩)] }, [], 0⟩

/-- As `worldUnmanaged`, with a lock record of `ab:1` that names no operation. -/
def worldIdleLock : World :=
  ⟨{ storeUnmanaged with SystemOperation := [(keyAB, ⟨""⟩)] }, [], 0⟩

def keyAB2 : String := "/redfish/v1/Systems/ab:2"

/-- As `worldLocked`, with a second compute system `ab:2` of the same source. -/
def worldTwoSystems : World :=
  ⟨{ storeUnmanaged with
     ComputerSystem := [keyAB, keyAB2]
     SystemOperation := [(keyAB, ⟨"Reset"⟩)] }, [], 0⟩

/-- As `worldUnmanaged`, with no compute system left. -/
def worldNoSystems : World :=
  ⟨{ storeUnmanaged with ComputerSystem := [], System := [] }, [], 0⟩

/-- A plugin-managed source `p1` of plugin `GRF`, whose manager is `m1`; the plugin manages no
system. -/
def worldPlugin : World :=
  ⟨{ AggregationSource :=
        [(urlPlugin, ⟨"grf", "admin",
          .obj [("Oem", .obj [("PluginType", .str "Compute"), ("PluginID", .str "GRF")])]⟩)]
     ConnectionMethod := []
     Plugin := [("GRF", ⟨"GRF", "m1", "admin", "secret"⟩)]
     Managers := [("/redfish/v1/Managers/m1", .obj [("Name", .str "GRF")])]
     System := []
     ComputerSystem := []
     Chassis := []
     SystemOperation := [] }, [], 0⟩

/-- A source `ab` managed through connection method `c1`, which also backs a second source;
`ab` has a target record and one compute system. -/
def worldConnectionMethod : World :=
  ⟨{ storeUnmanaged with
     AggregationSource :=
        [(urlAB, ⟨"10.0.0.1", "admin",
          .obj [("ConnectionMethod", .obj [("@odata.id", .str connectionMethodID)])]⟩)]
     ConnectionMethod :=
        [(connectionMethodID, ⟨"Redfish", "Compute:BasicAuth:GRF_v1.0.0",
          [⟨urlAB⟩, ⟨"/redfish/v1/AggregationService/AggregationSources/cd"⟩]⟩)] }, [], 0⟩


/-! # Theorems -/

/-! ## Worlds and tables -/

@[simp] theorem World.tick_clock (w : World) : w.tick.clock = w.clock + 1 := rfl

@[simp] theorem World.tick_store (w : World) : w.tick.store = w.store := rfl

@[simp] theorem World.tick_events (w : World) : w.tick.events = w.events := rfl

theorem Table.get_del_self {α : Type} (t : Table α) (k : String) : (t.del k).get k = none := by
  induction t with
  | nil => rfl
  | cons p t ih =>
    by_cases h : p.1 = k
    · simp [Table.del, Table.get, List.filter_cons, h]
    · simp [Table.del, Table.get, List.filter_cons, List.find?_cons, h]

theorem Table.get_put_self {α : Type} (t : Table α) (k : String) (v : α) :
    (t.put k v).get k = some v := by
  simp [Table.put, Table.get, List.find?_cons]

/-! ## `removeAggregationSource` -/

theorem removeAggregationSource_foldl (slice acc : List OdataID) (element : OdataID) :
    slice.foldl (fun elements val => if val ≠ element then elements ++ [val] else elements) acc
      = acc ++ slice.filter (fun val => val ≠ element) := by
  induction slice generalizing acc with
  | nil => simp
  | cons v s ih =>
    rw [List.foldl_cons, ih]
    by_cases h : v = element
    · simp [h]
    · simp [h, List.filter_cons]

theorem removeAggregationSource_eq_filter (slice : List OdataID) (element : OdataID) :
    removeAggregationSource slice element = slice.filter (fun val => val ≠ element) := by
  unfold removeAggregationSource
  rw [removeAggregationSource_foldl]
  simp

/-! ## Classification -/

theorem DeleteAggregationSource_eq (env : Env) (reqURL : String) (w : World) :
    DeleteAggregationSource env reqURL w =
      match (GetAggregationSourceInfo env reqURL w).1 with
      | .error dbErr => (errorResponse (some dbErr), (GetAggregationSourceInfo env reqURL w).2)
      | .ok aggregationSource =>
        match classify aggregationSource.Links with
        | none => (.panicked, (GetAggregationSourceInfo env reqURL w).2)
        | some (.ConnectionMethodManaged connectionMethodLink) =>
          deleteAggregationSourceWithConnectionMethod env reqURL connectionMethodLink
            (GetAggregationSourceInfo env reqURL w).2
        | some (.OemPluginManaged pluginID) =>
          match (deletePluginOf env pluginID (GetAggregationSourceInfo env reqURL w).2).1 with
          | .ret r => (r, (deletePluginOf env pluginID (GetAggregationSourceInfo env reqURL w).2).2)
          | .go resp =>
            finishDeleteAggregationSource env reqURL resp
              (deletePluginOf env pluginID (GetAggregationSourceInfo env reqURL w).2).2
        | some .Unmanaged =>
          match (deleteMatchingSystems env reqURL (GetAggregationSourceInfo env reqURL w).2).1 with
          | .ret r =>
            (r, (deleteMatchingSystems env reqURL (GetAggregationSourceInfo env reqURL w).2).2)
          | .go resp =>
            finishDeleteAggregationSource env reqURL resp
              (deleteMatchingSystems env reqURL (GetAggregationSourceInfo env reqURL w).2).2 := by
  unfold DeleteAggregationSource classify
  dsimp only
  cases (GetAggregationSourceInfo env reqURL w).1 with
  | error e => rfl
  | ok src =>
    dsimp only
    cases src.Links.asMap with
    | none => rfl
    | some links =>
      dsimp only
      cases mapGet links "ConnectionMethod" with
      | some cm =>
        dsimp only
        cases cm.asMap <;> rfl
      | none =>
        dsimp only
        cases mapGetMap links "Oem" with
        | none => rfl
        | some oem =>
          dsimp only
          cases mapGet oem "PluginType" with
          | none => rfl
          | some _ =>
            dsimp only
            cases mapGetString oem "PluginID" <;> rfl

theorem GetAggregationSourceInfo_found (env : Env) (reqURL : String) (w : World)
    (src : AggregationSource)
    (hf : env.fault w.clock (Op.GetAggregationSourceInfo reqURL) = none)
    (hsrc : w.store.AggregationSource.get reqURL = some src) :
    GetAggregationSourceInfo env reqURL w = (.ok src, w.tick) := by
  simp [GetAggregationSourceInfo, hf, hsrc]

theorem GetAggregationSourceInfo_world (env : Env) (reqURL : String) (w : World) :
    (GetAggregationSourceInfo env reqURL w).2 = w.tick := by
  unfold GetAggregationSourceInfo
  repeat' split
  all_goals rfl

/-! ## What the collaborators leave alone -/

@[simp] theorem GetAggregationSourceInfo_store (env : Env) (reqURL : String) (w : World) :
    (GetAggregationSourceInfo env reqURL w).2.store = w.store := by
  rw [GetAggregationSourceInfo_world]; rfl

@[simp] theorem DeleteEventSubscription_store (env : Env) (key : String) (w : World) :
    (DeleteEventSubscription env key w).2.store = w.store := rfl

@[simp] theorem GetAllMatchingDetails_store (env : Env) (table pattern : String) (w : World) :
    (GetAllMatchingDetails env table pattern w).2.store = w.store := by
  unfold GetAllMatchingDetails
  split <;> rfl

@[simp] theorem GetSystemOperationInfo_store (env : Env) (key : String) (w : World) :
    (GetSystemOperationInfo env key w).2.store = w.store := by
  unfold GetSystemOperationInfo
  repeat' split
  all_goals rfl

@[simp] theorem AddSystemOperationInfo_sources (env : Env) (so : SystemOperation) (key : String)
    (w : World) :
    (AddSystemOperationInfo env so key w).2.store.AggregationSource
      = w.store.AggregationSource := by
  unfold AddSystemOperationInfo
  split <;> rfl

@[simp] theorem DeleteSystemOperationInfo_sources (env : Env) (key : String) (w : World) :
    (DeleteSystemOperationInfo env key w).2.store.AggregationSource
      = w.store.AggregationSource := by
  unfold DeleteSystemOperationInfo
  repeat' split
  all_goals rfl

@[simp] theorem DeleteComputeSystem_sources (env : Env) (index : Int) (key : String)
    (w : World) :
    (DeleteComputeSystem env index key w).2.store.AggregationSource
      = w.store.AggregationSource := by
  unfold DeleteComputeSystem
  repeat' split
  all_goals rfl

@[simp] theorem DeleteSystem_sources (env : Env) (uuid : String) (w : World) :
    (DeleteSystem env uuid w).2.store.AggregationSource = w.store.AggregationSource := by
  unfold DeleteSystem
  repeat' split
  all_goals rfl

@[simp] theorem EventNotification_store (oid eventType collectionType : String) (w : World) :
    (EventNotification oid eventType collectionType w).store = w.store := rfl

@[simp] theorem EventNotification_foldl_store (l : List String) (eventType collectionType : String)
    (w : World) :
    (l.foldl (fun w chassis => EventNotification chassis eventType collectionType w) w).store
      = w.store := by
  induction l generalizing w with
  | nil => rfl
  | cons x l ih => simp [List.foldl_cons, ih]

@[simp] theorem deleteComputeLocked_sources (env : Env) (key : String) (index : Int) (w : World) :
    (deleteComputeLocked env key index w).2.store.AggregationSource
      = w.store.AggregationSource := by
  unfold deleteComputeLocked
  dsimp only
  repeat' split
  all_goals simp

@[simp] theorem deleteCompute_sources (env : Env) (key : String) (index : Int) (w : World) :
    (deleteCompute env key index w).2.store.AggregationSource = w.store.AggregationSource := by
  unfold deleteCompute
  dsimp only
  repeat' split
  all_goals simp

@[simp] theorem deleteComputeEach_sources (env : Env) (keys : List String) (resp : RPC)
    (w : World) :
    (deleteComputeEach env keys resp w).2.store.AggregationSource
      = w.store.AggregationSource := by
  induction keys generalizing resp w with
  | nil => rfl
  | cons k ks ih =>
    unfold deleteComputeEach
    dsimp only
    split
    · simp
    · rw [ih]; simp

/-! ## Status codes of the building blocks -/

theorem errorResponse_some (e : Error) :
    (errorResponse (some e)).codeIn [StatusNotFound, StatusInternalServerError] := by
  unfold errorResponse callError callErrNo GeneralError
  by_cases h : ErrType.DBKeyNotFound = e.errNo <;> simp [h, Result.codeIn]

theorem Result.codeIn_mono {r : Result} {a b : List Nat} (h : r.codeIn a) (hab : a ⊆ b) :
    r.codeIn b := by
  cases r with
  | panicked => trivial
  | returned resp => exact hab h

theorem errorResponse_codes4 (e : Error) :
    (errorResponse (some e)).codeIn
      [StatusOK, StatusNotFound, StatusNotAcceptable, StatusInternalServerError] :=
  Result.codeIn_mono (errorResponse_some e) (by simp)

theorem errorResponse_codes (e : Error) :
    (errorResponse (some e)).codeIn
      [0, StatusOK, StatusNotFound, StatusNotAcceptable, StatusInternalServerError] :=
  Result.codeIn_mono (errorResponse_some e) (by simp)

theorem deletePlugin_codes (env : Env) (oid : String) (w : World) :
    (deletePlugin env oid w).1.codeIn
      [StatusOK, StatusNotFound, StatusNotAcceptable, StatusInternalServerError] := by
  unfold deletePlugin
  dsimp only
  repeat' split
  all_goals first
    | exact errorResponse_codes4 _
    | simp [Result.codeIn, GeneralError, errorResponse, callError, callErrNo]

theorem deleteComputeLocked_codes (env : Env) (key : String) (index : Int) (w : World) :
    (deleteComputeLocked env key index w).1.codeIn
      [StatusOK, StatusNotFound, StatusNotAcceptable, StatusInternalServerError] := by
  unfold deleteComputeLocked
  dsimp only
  repeat' split
  all_goals first
    | exact errorResponse_codes4 _
    | simp [Result.codeIn, GeneralError]

theorem deleteCompute_codes (env : Env) (key : String) (index : Int) (w : World) :
    (deleteCompute env key index w).1.codeIn
      [StatusOK, StatusNotFound, StatusNotAcceptable, StatusInternalServerError] := by
  unfold deleteCompute
  dsimp only
  repeat' split
  all_goals first
    | exact deleteComputeLocked_codes _ _ _ _
    | simp [Result.codeIn, GeneralError]

theorem deleteComputeEach_codes (env : Env) (keys : List String) (resp : RPC) (w : World) :
    (deleteComputeEach env keys resp w).1.codeIn
      [resp.StatusCode, StatusOK, StatusNotFound, StatusNotAcceptable,
        StatusInternalServerError] := by
  induction keys generalizing resp w with
  | nil => simp [deleteComputeEach, Result.codeIn]
  | cons k ks ih =>
    unfold deleteComputeEach
    dsimp only
    split
    · trivial
    · rename_i r resp1 heq
      have h1 := deleteCompute_codes env k (LastIndexAny k "/") w
      rw [heq] at h1
      refine Result.codeIn_mono (ih resp1 _) ?_
      intro c hc
      simp only [List.mem_cons] at hc ⊢
      rcases hc with hc | hc
      · subst hc
        right
        simpa [Result.codeIn] using h1
      · right; exact hc

theorem deleteMatchingSystems_codes (env : Env) (url : String) (w : World) :
    (deleteMatchingSystems env url w).1.codeIn
      [0, StatusOK, StatusNotFound, StatusNotAcceptable, StatusInternalServerError] := by
  unfold deleteMatchingSystems
  dsimp only
  repeat' split
  all_goals first
    | exact errorResponse_codes _
    | trivial
    | skip
  rename_i r resp heq
  have h : (Result.returned resp).codeIn _ := heq ▸ deleteComputeEach_codes env _ RPC.zero _
  exact h

theorem deletePluginOf_codes (env : Env) (pluginID : String) (w : World) :
    (deletePluginOf env pluginID w).1.codeIn
      [0, StatusOK, StatusNotFound, StatusNotAcceptable, StatusInternalServerError] := by
  unfold deletePluginOf
  dsimp only
  repeat' split
  all_goals first
    | trivial
    | (simp [Flow.codeIn, Result.codeIn, GeneralError]; done)
    | skip
  rename_i r resp heq
  have h : (Result.returned resp).codeIn _ := heq ▸ deletePlugin_codes env _ _
  exact List.mem_cons_of_mem _ h

/-! ## Claims -/

/-- Claim C7. When the store lookup of the aggregation source reports "key not found",
`DeleteAggregationSource` returns 404 (ResourceNotFound) and mutates nothing: every table of
the store (records and locks alike) is as before and no notification is emitted. -/
theorem DeleteAggregationSource_absent (env : Env) (reqURL : String) (w : World) (e : Error)
    (hget : (GetAggregationSourceInfo env reqURL w).1 = .error e)
    (hno : e.errNo = ErrType.DBKeyNotFound) :
    (DeleteAggregationSource env reqURL w).1
        = .returned ⟨StatusNotFound, StatusMessage.ResourceNotFound⟩
      ∧ (DeleteAggregationSource env reqURL w).2.store = w.store
      ∧ (DeleteAggregationSource env reqURL w).2.events = w.events := by
  rw [DeleteAggregationSource_eq, hget]
  simp [GetAggregationSourceInfo_world, errorResponse, callError, callErrNo, hno, GeneralError]

theorem DeleteSystemOperationInfo_releases (env : Env) (key : String) (w : World)
    (hrel : env.fault w.clock (Op.DeleteSystemOperationInfo key) = none) :
    (DeleteSystemOperationInfo env key w).2.store.SystemOperation.get key = none := by
  unfold DeleteSystemOperationInfo
  rw [hrel]
  cases hk : w.store.SystemOperation.get key with
  | none => simpa using hk
  | some so => simp [Table.get_del_self]

theorem deleteCompute_no_lock_before (env : Env) (key : String) (index : Int) (w : World)
    (hfree : w.store.SystemOperation.get (TrimSuffix key "/") = none)
    (hrel : ∀ t, env.fault t (Op.DeleteSystemOperationInfo (TrimSuffix key "/")) = none) :
    (deleteCompute env key index w).2.store.SystemOperation.get (TrimSuffix key "/") = none := by
  have hget : (GetSystemOperationInfo env (TrimSuffix key "/") w).1.1.Operation = ""
      ∧ (GetSystemOperationInfo env (TrimSuffix key "/") w).2 = w.tick := by
    unfold GetSystemOperationInfo
    rw [hfree]
    split <;> simp
  unfold deleteCompute
  dsimp only
  rw [hget.1, hget.2]
  split
  · simpa using hfree
  · simp only [ne_eq, not_true_eq_false, ↓reduceIte]
    cases hf : env.fault (w.clock + 1) (Op.AddSystemOperationInfo (TrimSuffix key "/")) with
    | some e => simpa [AddSystemOperationInfo, hf] using hfree
    | none =>
      simp only [AddSystemOperationInfo, World.tick_clock, hf]
      apply DeleteSystemOperationInfo_releases
      exact hrel _

theorem deleteCompute_lock_acquired (env : Env) (key : String) (index : Int) (w : World)
    (hidle : (env.fault w.clock (Op.GetSystemOperationInfo (TrimSuffix key "/")) = none
        ∧ (w.store.SystemOperation.get (TrimSuffix key "/") = none
          ∨ w.store.SystemOperation.get (TrimSuffix key "/") = some ⟨""⟩))
      ∨ ∃ e, env.fault w.clock (Op.GetSystemOperationInfo (TrimSuffix key "/")) = some e
          ∧ e.errNo = ErrType.DBKeyNotFound)
    (hadd : env.fault (w.clock + 1) (Op.AddSystemOperationInfo (TrimSuffix key "/")) = none)
    (hrel : ∀ t, env.fault t (Op.DeleteSystemOperationInfo (TrimSuffix key "/")) = none) :
    (deleteCompute env key index w).2.store.SystemOperation.get (TrimSuffix key "/") = none := by
  unfold deleteCompute
  rcases hidle with ⟨hlook, hk | hk⟩ | ⟨e, hlook, he⟩
  · simp only [GetSystemOperationInfo, hlook, hk, callErrNo, keyNotFound, Option.map_some',
      ne_eq, not_true_eq_false, and_false, if_false, AddSystemOperationInfo,
      World.tick_clock, hadd]
    apply DeleteSystemOperationInfo_releases
    exact hrel _
  · simp only [GetSystemOperationInfo, hlook, hk, Option.isSome_none, Bool.false_eq_true,
      false_and, ne_eq, not_true_eq_false, if_false, AddSystemOperationInfo,
      World.tick_clock, hadd]
    apply DeleteSystemOperationInfo_releases
    exact hrel _
  · simp only [GetSystemOperationInfo, hlook, callErrNo, Option.map_some', he,
      ne_eq, not_true_eq_false, and_false, if_false, AddSystemOperationInfo,
      World.tick_clock, hadd]
    apply DeleteSystemOperationInfo_releases
    exact hrel _

theorem deleteCompute_conflict (env : Env) (key : String) (index : Int) (w : World)
    (so : SystemOperation)
    (hheld : w.store.SystemOperation.get (TrimSuffix key "/") = some so)
    (hbusy : so.Operation ≠ "")
    (hlook : env.fault w.clock (Op.GetSystemOperationInfo (TrimSuffix key "/")) = none) :
    (deleteCompute env key index w).1
        = .returned ⟨StatusNotAcceptable, StatusMessage.ResourceCannotBeDeleted⟩
      ∧ (deleteCompute env key index w).2.store = w.store
      ∧ (deleteCompute env key index w).2.events = w.events := by
  unfold deleteCompute
  simp [GetSystemOperationInfo, hlook, hheld, hbusy, GeneralError]

/-- Claim C1, as amended. For every key, index and state, with `k = TrimSuffix(key, "/")`:
(1) when the lock lookup shows no operation in progress for `k` (it is answered and there is
no lock record or one naming no operation, or it reports "key not found") and the store carries
out the write of the lock record and the release delete, no lock record exists for `k` after
`deleteCompute(key, index)`, however the call ends (success, any later failure, or a panic);
(2) when no lock record exists for `k` before the call, none exists after it even if the lookup
or the write of the lock record fails, the store carrying out the release delete;
(3) when an operation is in progress for `k` and the lookup is answered, the call returns the
Conflict 406 (ResourceCannotBeDeleted) and leaves the store, hence that lock record, and the
notification log as they were. -/
theorem deleteCompute_releases_lock (env : Env) (key : String) (index : Int) (w : World) :
    (((env.fault w.clock (Op.GetSystemOperationInfo (TrimSuffix key "/")) = none
          ∧ (w.store.SystemOperation.get (TrimSuffix key "/") = none
            ∨ w.store.SystemOperation.get (TrimSuffix key "/") = some ⟨""⟩))
        ∨ ∃ e, env.fault w.clock (Op.GetSystemOperationInfo (TrimSuffix key "/")) = some e
            ∧ e.errNo = ErrType.DBKeyNotFound) →
        env.fault (w.clock + 1) (Op.AddSystemOperationInfo (TrimSuffix key "/")) = none →
        (∀ t, env.fault t (Op.DeleteSystemOperationInfo (TrimSuffix key "/")) = none) →
        (deleteCompute env key index w).2.store.SystemOperation.get (TrimSuffix key "/") = none)
      ∧ (w.store.SystemOperation.get (TrimSuffix key "/") = none →
        (∀ t, env.fault t (Op.DeleteSystemOperationInfo (TrimSuffix key "/")) = none) →
        (deleteCompute env key index w).2.store.SystemOperation.get (TrimSuffix key "/") = none)
      ∧ (∀ so, w.store.SystemOperation.get (TrimSuffix key "/") = some so →
        so.Operation ≠ "" →
        env.fault w.clock (Op.GetSystemOperationInfo (TrimSuffix key "/")) = none →
        (deleteCompute env key index w).1
            = .returned ⟨StatusNotAcceptable, StatusMessage.ResourceCannotBeDeleted⟩
          ∧ (deleteCompute env key index w).2.store = w.store
          ∧ (deleteCompute env key index w).2.store.SystemOperation.get (TrimSuffix key "/")
              = some so
          ∧ (deleteCompute env key index w).2.events = w.events) := by
  refine ⟨deleteCompute_lock_acquired env key index w,
    deleteCompute_no_lock_before env key index w, ?_⟩
  intro so hheld hbusy hlook
  obtain ⟨h1, h2, h3⟩ := deleteCompute_conflict env key index w so hheld hbusy hlook
  exact ⟨h1, h2, by rw [h2]; exact hheld, h3⟩

/-- Claim C5. For a plugin-managed source whose Plugin record and Manager record (named after
the plugin) exist and whose plugin answers the liveness probe, `DeleteAggregationSource` returns
406 (ResourceCannotBeDeleted) and leaves every table of the store, hence the Manager, Plugin and
AggregationSource records, as before; no notification is emitted. The store is taken to carry
out the lookups. -/
theorem DeleteAggregationSource_plugin_alive (env : Env) (reqURL : String) (w : World)
    (src : AggregationSource) (pluginID : String) (plugin : Plugin) (manager : Value)
    (hsrc : w.store.AggregationSource.get reqURL = some src)
    (hkind : classify src.Links = some (Category.OemPluginManaged pluginID))
    (hplugin : w.store.Plugin.get pluginID = some plugin)
    (hmanager : w.store.Managers.get ("/redfish/v1/Managers/" ++ plugin.ManagerUUID) = some manager)
    (hname : managerName manager = some pluginID)
    (hstore : env.succeeds [Op.GetAggregationSourceInfo reqURL, Op.GetPluginData pluginID,
      Op.GetResource "Managers" ("/redfish/v1/Managers/" ++ plugin.ManagerUUID), Op.GetAllSystems])
    (halive : ∀ t, env.contactPlugin t plugin = none) :
    (DeleteAggregationSource env reqURL w).1
        = .returned ⟨StatusNotAcceptable, StatusMessage.ResourceCannotBeDeleted⟩
      ∧ (DeleteAggregationSource env reqURL w).2.store = w.store
      ∧ (DeleteAggregationSource env reqURL w).2.events = w.events := by
  have h1 : ∀ t, env.fault t (Op.GetAggregationSourceInfo reqURL) = none :=
    fun t => hstore t _ (by simp)
  have h2 : ∀ t, env.fault t (Op.GetPluginData pluginID) = none := fun t => hstore t _ (by simp)
  have h3 : ∀ t, env.fault t
      (Op.GetResource "Managers" ("/redfish/v1/Managers/" ++ plugin.ManagerUUID)) = none :=
    fun t => hstore t _ (by simp)
  have h4 : ∀ t, env.fault t Op.GetAllSystems = none := fun t => hstore t _ (by simp)
  unfold managerName at hname
  rw [DeleteAggregationSource_eq, GetAggregationSourceInfo_found env reqURL w src (h1 _) hsrc]
  simp only [hkind]
  simp only [deletePluginOf, deletePlugin, GetPluginData, GetResource, GetAllSystems, h2, h3, h4,
    World.tick_clock, World.tick_store, hplugin, hmanager, hname, contactPlugin, halive]
  split_ifs <;>
    simp [finishDeleteAggregationSource, GeneralError, StatusNotAcceptable, StatusOK]

/-- Claim C6. For a plugin-managed source whose Plugin record and Manager record (named after
the plugin) exist, whose plugin is unreachable and is referenced by no compute system, all store
operations succeeding: `DeleteAggregationSource` returns 204 (ResourceRemoved); the store after
the call is the store before it without the Manager, Plugin and AggregationSource records; and
exactly one notification is emitted, `ResourceRemoved` for the manager URL with origin
`ManagerCollection`. -/
theorem DeleteAggregationSource_plugin_removed (env : Env) (reqURL : String) (w : World)
    (src : AggregationSource) (pluginID : String) (plugin : Plugin) (manager : Value)
    (hsrc : w.store.AggregationSource.get reqURL = some src)
    (hkind : classify src.Links = some (Category.OemPluginManaged pluginID))
    (hplugin : w.store.Plugin.get pluginID = some plugin)
    (hmanager : w.store.Managers.get ("/redfish/v1/Managers/" ++ plugin.ManagerUUID) = some manager)
    (hname : managerName manager = some pluginID)
    (hnone : ∀ p ∈ w.store.System, p.2.PluginID ≠ pluginID)
    (hdown : ∀ t, env.contactPlugin t plugin ≠ none)
    (hstore : env.succeeds [Op.GetAggregationSourceInfo reqURL, Op.GetPluginData pluginID,
      Op.GetResource "Managers" ("/redfish/v1/Managers/" ++ plugin.ManagerUUID), Op.GetAllSystems,
      Op.DeleteManagersData ("/redfish/v1/Managers/" ++ plugin.ManagerUUID),
      Op.DeletePluginData pluginID, Op.DeleteAggregationSource reqURL]) :
    (DeleteAggregationSource env reqURL w).1
        = .returned ⟨StatusNoContent, StatusMessage.ResourceRemoved⟩
      ∧ (DeleteAggregationSource env reqURL w).2.store =
          { w.store with
            Managers := w.store.Managers.del ("/redfish/v1/Managers/" ++ plugin.ManagerUUID)
            Plugin := w.store.Plugin.del pluginID
            AggregationSource := w.store.AggregationSource.del reqURL }
      ∧ (DeleteAggregationSource env reqURL w).2.store.Managers.get
          ("/redfish/v1/Managers/" ++ plugin.ManagerUUID) = none
      ∧ (DeleteAggregationSource env reqURL w).2.store.Plugin.get pluginID = none
      ∧ (DeleteAggregationSource env reqURL w).2.store.AggregationSource.get reqURL = none
      ∧ (DeleteAggregationSource env reqURL w).2.events =
          w.events ++ [⟨"/redfish/v1/Managers/" ++ plugin.ManagerUUID, "ResourceRemoved",
            "ManagerCollection"⟩] := by
  have h1 : ∀ t, env.fault t (Op.GetAggregationSourceInfo reqURL) = none :=
    fun t => hstore t _ (by simp)
  have h2 : ∀ t, env.fault t (Op.GetPluginData pluginID) = none := fun t => hstore t _ (by simp)
  have h3 : ∀ t, env.fault t
      (Op.GetResource "Managers" ("/redfish/v1/Managers/" ++ plugin.ManagerUUID)) = none :=
    fun t => hstore t _ (by simp)
  have h4 : ∀ t, env.fault t Op.GetAllSystems = none := fun t => hstore t _ (by simp)
  have h5 : ∀ t, env.fault t
      (Op.DeleteManagersData ("/redfish/v1/Managers/" ++ plugin.ManagerUUID)) = none :=
    fun t => hstore t _ (by simp)
  have h6 : ∀ t, env.fault t (Op.DeletePluginData pluginID) = none :=
    fun t => hstore t _ (by simp)
  have h7 : ∀ t, env.fault t (Op.DeleteAggregationSource reqURL) = none :=
    fun t => hstore t _ (by simp)
  have hcnt : ¬ List.countP (fun t => decide (t.PluginID = pluginID))
      (List.map (fun p => p.2) w.store.System) > 0 := by
    simp only [gt_iff_lt, List.countP_pos_iff, not_exists, not_and]
    intro t ht
    obtain ⟨p, hp, rfl⟩ := List.mem_map.1 ht
    simpa using hnone p hp
  unfold managerName at hname
  obtain ⟨err, herr⟩ : ∃ err, env.contactPlugin (w.clock + 1 + 1 + 1 + 1 + 1) plugin = some err :=
    Option.ne_none_iff_exists'.1 (hdown _)
  rw [DeleteAggregationSource_eq, GetAggregationSourceInfo_found env reqURL w src (h1 _) hsrc]
  simp only [hkind]
  simp only [deletePluginOf, deletePlugin, GetPluginData, GetResource, GetAllSystems, h2, h3, h4,
    World.tick_clock, World.tick_store, hplugin, hmanager, hname, contactPlugin, if_neg hcnt,
    herr, DeleteManagersData, DeletePluginData, h5, h6, finishDeleteAggregationSource, StatusOK,
    ne_eq, not_true_eq_false, if_false, agmodel.DeleteAggregationSource, EventNotification, h7,
    World.tick_events, hsrc]
  simp only [Table.get_del_self, and_self]


/-! ## Removal of the source record -/

theorem agmodelDeleteAggregationSource_removed (env : Env) (reqURL : String) (w : World)
    (h : (agmodel.DeleteAggregationSource env reqURL w).1 = none) :
    (agmodel.DeleteAggregationSource env reqURL w).2.store.AggregationSource.get reqURL = none := by
  unfold agmodel.DeleteAggregationSource at h ⊢
  split at h
  · simp at h
  · split at h
    · exact Table.get_del_self _ _
    · simp at h

@[simp] theorem UpdateConnectionMethod_sources (env : Env) (cm : ConnectionMethod) (id : String)
    (w : World) :
    (UpdateConnectionMethod env cm id w).2.store.AggregationSource
      = w.store.AggregationSource := by
  unfold UpdateConnectionMethod
  repeat' split
  all_goals rfl

/-- A returned 204 comes with the source record removed. -/
theorem removed_of_codeIn (reqURL : String) (x : Result × World)
    (h : x.1.codeIn [0, StatusOK, StatusNotFound, StatusNotAcceptable, StatusInternalServerError])
    (resp : RPC) (hr : x.1 = .returned resp) (h204 : resp.StatusCode = StatusNoContent) :
    x.2.store.AggregationSource.get reqURL = none := by
  rw [hr] at h
  simp [Result.codeIn, h204, StatusNoContent, StatusOK, StatusNotFound, StatusNotAcceptable,
    StatusInternalServerError] at h

theorem finishDeleteAggregationSource_removed (env : Env) (reqURL : String) (resp0 : RPC)
    (w : World)
    (h0 : resp0.StatusCode ∈
      [0, StatusOK, StatusNotFound, StatusNotAcceptable, StatusInternalServerError])
    (resp : RPC) (hr : (finishDeleteAggregationSource env reqURL resp0 w).1 = .returned resp)
    (h204 : resp.StatusCode = StatusNoContent) :
    (finishDeleteAggregationSource env reqURL resp0 w).2.store.AggregationSource.get reqURL
      = none := by
  unfold finishDeleteAggregationSource at hr ⊢
  dsimp only at hr ⊢
  split
  · rename_i hne
    rw [if_pos hne] at hr
    exact removed_of_codeIn reqURL _ h0 resp hr h204
  · rename_i hne
    rw [if_neg hne] at hr
    split
    · rename_i heq
      rw [heq] at hr
      simp only [Result.returned.injEq] at hr
      subst hr
      simp [CreateInternalErrorResponse, StatusNoContent, StatusInternalServerError] at h204
    · rename_i heq
      exact agmodelDeleteAggregationSource_removed env reqURL w heq

theorem finishWithConnectionMethod_removed (env : Env) (url : String) (cm : ConnectionMethod)
    (id : String) (resp0 : RPC) (w : World)
    (h0 : resp0.StatusCode ∈
      [0, StatusOK, StatusNotFound, StatusNotAcceptable, StatusInternalServerError])
    (resp : RPC) (hr : (finishWithConnectionMethod env url cm id resp0 w).1 = .returned resp)
    (h204 : resp.StatusCode = StatusNoContent) :
    (finishWithConnectionMethod env url cm id resp0 w).2.store.AggregationSource.get url
      = none := by
  unfold finishWithConnectionMethod at hr ⊢
  dsimp only at hr ⊢
  split
  · rename_i hne
    rw [if_pos hne] at hr
    exact removed_of_codeIn url _ h0 resp hr h204
  · rename_i hne
    rw [if_neg hne] at hr
    split
    · rename_i heq
      rw [heq] at hr
      simp only [Result.returned.injEq] at hr
      subst hr
      simp [CreateInternalErrorResponse, StatusNoContent, StatusInternalServerError] at h204
    · rename_i heq
      have hrem := agmodelDeleteAggregationSource_removed env url w heq
      split <;> simpa using hrem

theorem Flow.ret_codes {f : Flow} {r : Result} {codes : List Nat} (h : f.codeIn codes)
    (hf : f = .ret r) : r.codeIn codes := by
  subst hf; exact h

theorem Flow.go_codes {f : Flow} {resp : RPC} {codes : List Nat} (h : f.codeIn codes)
    (hf : f = .go resp) : resp.StatusCode ∈ codes := by
  subst hf; exact h

theorem deleteAggregationSourceWithConnectionMethod_removed (env : Env) (url : String)
    (link : List (String × Value)) (w : World) (resp : RPC)
    (hr : (deleteAggregationSourceWithConnectionMethod env url link w).1 = .returned resp)
    (h204 : resp.StatusCode = StatusNoContent) :
    (deleteAggregationSourceWithConnectionMethod env url link w).2.store.AggregationSource.get url
      = none := by
  revert hr
  unfold deleteAggregationSourceWithConnectionMethod
  dsimp only
  repeat' split
  all_goals intro hr
  all_goals first
    | exact removed_of_codeIn url _ trivial resp hr h204
    | exact removed_of_codeIn url _ (errorResponse_codes _) resp hr h204
    | (rename_i heq
       exact removed_of_codeIn url _
        (Flow.ret_codes (deletePluginOf_codes _ _ _) heq) resp hr h204)
    | (rename_i heq
       exact removed_of_codeIn url _
        (Flow.ret_codes (deleteMatchingSystems_codes _ _ _) heq) resp hr h204)
    | (rename_i heq
       exact finishWithConnectionMethod_removed env url _ _ _ _
        (Flow.go_codes (deletePluginOf_codes _ _ _) heq) resp hr h204)
    | (rename_i heq
       exact finishWithConnectionMethod_removed env url _ _ _ _
        (Flow.go_codes (deleteMatchingSystems_codes _ _ _) heq) resp hr h204)
    | (refine removed_of_codeIn url _ ?_ resp hr h204
       simp [Result.codeIn, GeneralError])

theorem DeleteAggregationSource_removed (env : Env) (reqURL : String) (w : World) (resp : RPC)
    (hr : (DeleteAggregationSource env reqURL w).1 = .returned resp)
    (h204 : resp.StatusCode = StatusNoContent) :
    (DeleteAggregationSource env reqURL w).2.store.AggregationSource.get reqURL = none := by
  revert hr
  unfold DeleteAggregationSource
  dsimp only
  repeat' split
  all_goals intro hr
  all_goals first
    | exact removed_of_codeIn reqURL _ trivial resp hr h204
    | exact removed_of_codeIn reqURL _ (errorResponse_codes _) resp hr h204
    | exact deleteAggregationSourceWithConnectionMethod_removed env reqURL _ _ resp hr h204
    | (rename_i heq
       exact removed_of_codeIn reqURL _
        (Flow.ret_codes (deletePluginOf_codes _ _ _) heq) resp hr h204)
    | (rename_i heq
       exact removed_of_codeIn reqURL _
        (Flow.ret_codes (deleteMatchingSystems_codes _ _ _) heq) resp hr h204)
    | (rename_i heq
       exact finishDeleteAggregationSource_removed env reqURL _ _
        (Flow.go_codes (deletePluginOf_codes _ _ _) heq) resp hr h204)
    | (rename_i heq
       exact finishDeleteAggregationSource_removed env reqURL _ _
        (Flow.go_codes (deleteMatchingSystems_codes _ _ _) heq) resp hr h204)

/-- Claim C10. Idempotence on the already-removed axis: whenever
`DeleteAggregationSource(url)` returns 204 (Removed), a second `DeleteAggregationSource(url)` on
the resulting state returns 404 (NotFound), the store answering the second lookup from its
tables. -/
theorem DeleteAggregationSource_twice (env env2 : Env) (reqURL : String) (w : World)
    (resp : RPC)
    (hfirst : (DeleteAggregationSource env reqURL w).1 = .returned resp)
    (h204 : resp.StatusCode = StatusNoContent)
    (hlookup : env2.fault (DeleteAggregationSource env reqURL w).2.clock
      (Op.GetAggregationSourceInfo reqURL) = none) :
    (DeleteAggregationSource env2 reqURL (DeleteAggregationSource env reqURL w).2).1
      = .returned ⟨StatusNotFound, StatusMessage.ResourceNotFound⟩ := by
  have hrem := DeleteAggregationSource_removed env reqURL w resp hfirst h204
  rw [DeleteAggregationSource_eq]
  simp [GetAggregationSourceInfo, hlookup, hrem, errorResponse, callError, callErrNo, keyNotFound,
    GeneralError]

/-! ## The back-reference of the connection method -/

theorem not204_of_codeIn {r : Result}
    (h : r.codeIn [0, StatusOK, StatusNotFound, StatusNotAcceptable, StatusInternalServerError])
    (resp : RPC) (hr : r = .returned resp) (h204 : resp.StatusCode = StatusNoContent) : False := by
  rw [hr] at h
  simp [Result.codeIn, h204, StatusNoContent, StatusOK, StatusNotFound, StatusNotAcceptable,
    StatusInternalServerError] at h

theorem GetConnectionMethod_ok (env : Env) (id : String) (w : World) (cm : ConnectionMethod)
    (h : (GetConnectionMethod env id w).1 = .ok cm) : w.store.ConnectionMethod.get id = some cm := by
  unfold GetConnectionMethod at h
  split at h
  · simp at h
  · split at h
    · rename_i heq
      simp only [Except.ok.injEq] at h
      rw [heq, h]
    · simp at h

theorem UpdateConnectionMethod_written (env : Env) (cm : ConnectionMethod) (id : String)
    (w : World) (h : (UpdateConnectionMethod env cm id w).1 = none) :
    (UpdateConnectionMethod env cm id w).2.store.ConnectionMethod.get id = some cm := by
  unfold UpdateConnectionMethod at h ⊢
  split at h
  · simp at h
  · split at h
    · exact Table.get_put_self _ _ _
    · simp at h

theorem finishWithConnectionMethod_written (env : Env) (url : String) (cm : ConnectionMethod)
    (id : String) (resp0 : RPC) (w : World)
    (h0 : resp0.StatusCode ∈
      [0, StatusOK, StatusNotFound, StatusNotAcceptable, StatusInternalServerError])
    (resp : RPC) (hr : (finishWithConnectionMethod env url cm id resp0 w).1 = .returned resp)
    (h204 : resp.StatusCode = StatusNoContent) :
    (finishWithConnectionMethod env url cm id resp0 w).2.store.ConnectionMethod.get id
      = some { cm with AggregationSources := removeAggregationSource cm.AggregationSources ⟨url⟩ } := by
  revert hr
  unfold finishWithConnectionMethod
  dsimp only
  repeat' split
  all_goals intro hr
  · exact (not204_of_codeIn (r := .returned resp0) h0 resp hr h204).elim
  · simp only [Result.returned.injEq] at hr
    subst hr
    simp [CreateInternalErrorResponse, StatusNoContent, StatusInternalServerError] at h204
  · simp only [Result.returned.injEq] at hr
    subst hr
    simp [GeneralError, StatusNoContent, StatusInternalServerError] at h204
  · rename_i heq
    exact UpdateConnectionMethod_written env _ id _ heq

theorem deleteAggregationSourceWithConnectionMethod_written (env : Env) (url : String)
    (link : List (String × Value)) (w : World) (id : String) (resp : RPC)
    (hid : mapGetString link "@odata.id" = some id)
    (hr : (deleteAggregationSourceWithConnectionMethod env url link w).1 = .returned resp)
    (h204 : resp.StatusCode = StatusNoContent) :
    ∃ cm, w.store.ConnectionMethod.get id = some cm ∧
      (deleteAggregationSourceWithConnectionMethod env url link w).2.store.ConnectionMethod.get id
        = some { cm with
            AggregationSources := removeAggregationSource cm.AggregationSources ⟨url⟩ } := by
  revert hr
  unfold deleteAggregationSourceWithConnectionMethod
  simp only [hid]
  cases hcm : (GetConnectionMethod env id w).1 with
  | error e =>
    intro hr
    exact (not204_of_codeIn (errorResponse_codes e) resp hr h204).elim
  | ok cm =>
    dsimp only
    intro hr
    refine ⟨cm, GetConnectionMethod_ok env id w cm hcm, ?_⟩
    revert hr
    repeat' split
    all_goals intro hr
    all_goals first
      | exact (not204_of_codeIn (r := .panicked) trivial resp hr h204).elim
      | (rename_i heq
         exact (not204_of_codeIn
          (Flow.ret_codes (deletePluginOf_codes _ _ _) heq) resp hr h204).elim)
      | (rename_i heq
         exact (not204_of_codeIn
          (Flow.ret_codes (deleteMatchingSystems_codes _ _ _) heq) resp hr h204).elim)
      | (rename_i heq
         exact finishWithConnectionMethod_written env url _ _ _ _
          (Flow.go_codes (deletePluginOf_codes _ _ _) heq) resp hr h204)
      | (rename_i heq
         exact finishWithConnectionMethod_written env url _ _ _ _
          (Flow.go_codes (deleteMatchingSystems_codes _ _ _) heq) resp hr h204)
      | (simp only [Result.returned.injEq] at hr
         subst hr
         simp [GeneralError, StatusNoContent, StatusNotAcceptable] at h204)

/-- Claim C9. `removeAggregationSource(s, x)` is `s` filtered by `≠ x`; and whenever the
deletion of a connection-method-managed source URL returns 204 (Removed), the `ConnectionMethod`
record persisted by the call is the record that was there before with its `AggregationSources`
list filtered by `≠ url` (other entries kept, in order), so the list no longer holds the deleted
URL. -/
theorem DeleteAggregationSource_backreference (env : Env) (reqURL : String) (w : World)
    (src : AggregationSource) (link : List (String × Value)) (id : String) (resp : RPC)
    (hsrc : w.store.AggregationSource.get reqURL = some src)
    (hkind : classify src.Links = some (Category.ConnectionMethodManaged link))
    (hid : mapGetString link "@odata.id" = some id)
    (hr : (DeleteAggregationSource env reqURL w).1 = .returned resp)
    (h204 : resp.StatusCode = StatusNoContent) :
    (∀ (slice : List OdataID) (element : OdataID),
        removeAggregationSource slice element = slice.filter (fun val => val ≠ element))
      ∧ ∃ cm, w.store.ConnectionMethod.get id = some cm
        ∧ (DeleteAggregationSource env reqURL w).2.store.ConnectionMethod.get id
            = some { cm with AggregationSources :=
                cm.AggregationSources.filter (fun val => val ≠ ⟨reqURL⟩) }
        ∧ (⟨reqURL⟩ : OdataID) ∉ cm.AggregationSources.filter (fun val => val ≠ ⟨reqURL⟩) := by
  refine ⟨removeAggregationSource_eq_filter, ?_⟩
  rw [DeleteAggregationSource_eq] at hr ⊢
  cases hget : (GetAggregationSourceInfo env reqURL w).1 with
  | error e =>
    rw [hget] at hr
    exact (not204_of_codeIn (errorResponse_codes e) resp hr h204).elim
  | ok src2 =>
    have hsame : src2 = src := by
      unfold GetAggregationSourceInfo at hget
      split at hget
      · simp at hget
      · rw [hsrc] at hget
        simpa using hget.symm
    subst hsame
    rw [hget] at hr
    simp only [hkind] at hr ⊢
    obtain ⟨cm, hcm, hw⟩ := deleteAggregationSourceWithConnectionMethod_written env reqURL link
      _ id resp hid hr h204
    refine ⟨cm, by simpa using hcm, ?_, by simp⟩
    rw [hw, removeAggregationSource_eq_filter]


/-! ## The fan-out over the matching compute systems -/

theorem lastIndexFrom_bounds (chars : List Char) (s : List Char) (i j : Nat)
    (h : lastIndexFrom chars s i = some j) : i ≤ j ∧ j < i + s.length := by
  induction s generalizing i with
  | nil => simp [lastIndexFrom] at h
  | cons c cs ih =>
    unfold lastIndexFrom at h
    cases hrec : lastIndexFrom chars cs (i + 1) with
    | some j2 =>
      rw [hrec] at h
      simp only [Option.some.injEq] at h
      subst h
      have := ih (i + 1) hrec
      simp only [List.length_cons]
      omega
    | none =>
      rw [hrec] at h
      simp only at h
      split at h
      · simp only [Option.some.injEq] at h
        subst h
        simp
      · simp at h

theorem sliceFrom_LastIndexAny (key chars : String) :
    ∃ rest, sliceFrom key (LastIndexAny key chars + 1) = some rest := by
  unfold sliceFrom LastIndexAny
  cases h : lastIndexFrom chars.data key.data 0 with
  | none => simp
  | some j =>
    have := lastIndexFrom_bounds _ _ _ _ h
    simp only
    rw [if_pos]
    · exact ⟨_, rfl⟩
    · constructor <;> omega

theorem errorResponse_some_ne_panicked (e : Error) : errorResponse (some e) ≠ .panicked := by
  unfold errorResponse callError callErrNo
  by_cases h : ErrType.DBKeyNotFound = e.errNo <;> simp [h]

theorem deleteComputeLocked_returns (env : Env) (key : String) (w : World)
    (hsub : ∀ t key, (env.DeleteEventSubscription t key).subResponse ≠ none
      ∨ (env.DeleteEventSubscription t key).err ≠ none) :
    (deleteComputeLocked env key (LastIndexAny key "/") w).1 ≠ .panicked := by
  obtain ⟨rest, hrest⟩ := sliceFrom_LastIndexAny key "/"
  unfold deleteComputeLocked
  simp only [hrest, DeleteEventSubscription]
  split
  · simp
  · rename_i hno
    cases hresp : (env.DeleteEventSubscription w.clock key).subResponse with
    | none =>
      exfalso
      apply hno
      rcases hsub w.clock key with h | h
      · exact (h hresp).elim
      · rw [hresp]
        exact ⟨Option.isSome_iff_ne_none.2 h, rfl⟩
    | some code =>
      dsimp only
      repeat' split
      all_goals first
        | exact errorResponse_some_ne_panicked _
        | simp

theorem deleteCompute_returns (env : Env) (key : String) (w : World)
    (hsub : ∀ t key, (env.DeleteEventSubscription t key).subResponse ≠ none
      ∨ (env.DeleteEventSubscription t key).err ≠ none) :
    (deleteCompute env key (LastIndexAny key "/") w).1 ≠ .panicked := by
  unfold deleteCompute
  dsimp only
  repeat' split
  all_goals first
    | exact deleteComputeLocked_returns env key _ hsub
    | simp

theorem deleteComputeEach_last (env : Env) (ks : List String) (k : String) (resp : RPC)
    (w : World)
    (hsub : ∀ t key, (env.DeleteEventSubscription t key).subResponse ≠ none
      ∨ (env.DeleteEventSubscription t key).err ≠ none) :
    deleteComputeEach env (ks ++ [k]) resp w
      = deleteCompute env k (LastIndexAny k "/") (deleteComputeRun env ks w) := by
  induction ks generalizing resp w with
  | nil =>
    simp only [List.nil_append, deleteComputeEach, deleteComputeRun, List.foldl_nil]
    have := deleteCompute_returns env k w hsub
    cases h : (deleteCompute env k (LastIndexAny k "/") w).1 with
    | panicked => exact (this h).elim
    | returned r =>
      dsimp only
      rw [← h]
  | cons a ks ih =>
    simp only [List.cons_append, deleteComputeEach, deleteComputeRun, List.foldl_cons]
    have := deleteCompute_returns env a w hsub
    cases h : (deleteCompute env a (LastIndexAny a "/") w).1 with
    | panicked => exact (this h).elim
    | returned r =>
      dsimp only
      exact ih r _

@[simp] theorem deleteComputeRun_sources (env : Env) (ks : List String) (w : World) :
    (deleteComputeRun env ks w).store.AggregationSource = w.store.AggregationSource := by
  induction ks generalizing w with
  | nil => rfl
  | cons a ks ih =>
    simp only [deleteComputeRun, List.foldl_cons] at ih ⊢
    rw [ih]
    simp

theorem agmodelDeleteAggregationSource_done (env : Env) (reqURL : String) (w : World)
    (src : AggregationSource)
    (hdel : ∀ t, env.fault t (Op.DeleteAggregationSource reqURL) = none)
    (hsrc : w.store.AggregationSource.get reqURL = some src) :
    (agmodel.DeleteAggregationSource env reqURL w).1 = none
      ∧ (agmodel.DeleteAggregationSource env reqURL w).2.store.AggregationSource.get reqURL
          = none := by
  simp [agmodel.DeleteAggregationSource, hdel, hsrc, Table.get_del_self]

theorem agmodelDeleteAggregationSource_tiers (env : Env) (reqURL : String) (w : World) :
    (agmodel.DeleteAggregationSource env reqURL w).2.store.ComputerSystem = w.store.ComputerSystem
      ∧ (agmodel.DeleteAggregationSource env reqURL w).2.store.System = w.store.System := by
  unfold agmodel.DeleteAggregationSource
  repeat' split
  all_goals exact ⟨rfl, rfl⟩

theorem UpdateConnectionMethod_tiers (env : Env) (cm : ConnectionMethod) (id : String)
    (w : World) :
    (UpdateConnectionMethod env cm id w).2.store.ComputerSystem = w.store.ComputerSystem
      ∧ (UpdateConnectionMethod env cm id w).2.store.System = w.store.System := by
  unfold UpdateConnectionMethod
  repeat' split
  all_goals exact ⟨rfl, rfl⟩

theorem finishDeleteAggregationSource_tiers (env : Env) (reqURL : String) (resp : RPC)
    (w : World) :
    (finishDeleteAggregationSource env reqURL resp w).2.store.ComputerSystem
        = w.store.ComputerSystem
      ∧ (finishDeleteAggregationSource env reqURL resp w).2.store.System = w.store.System := by
  unfold finishDeleteAggregationSource
  dsimp only
  repeat' split
  all_goals first
    | exact ⟨rfl, rfl⟩
    | exact agmodelDeleteAggregationSource_tiers env reqURL w

theorem finishWithConnectionMethod_tiers (env : Env) (url : String) (cm : ConnectionMethod)
    (id : String) (resp : RPC) (w : World) :
    (finishWithConnectionMethod env url cm id resp w).2.store.ComputerSystem
        = w.store.ComputerSystem
      ∧ (finishWithConnectionMethod env url cm id resp w).2.store.System = w.store.System := by
  have h1 := agmodelDeleteAggregationSource_tiers env url w
  unfold finishWithConnectionMethod
  dsimp only
  repeat' split
  all_goals first
    | exact ⟨rfl, rfl⟩
    | exact h1
    | exact ⟨(UpdateConnectionMethod_tiers env _ id _).1.trans h1.1,
        (UpdateConnectionMethod_tiers env _ id _).2.trans h1.2⟩

theorem deleteMatchingSystems_last (env : Env) (url id : String) (ks : List String) (k : String)
    (w : World)
    (hid : (Split url "/redfish/v1/AggregationService/AggregationSources/")[1]? = some id)
    (hkeys : w.store.ComputerSystem.filter (fun key => containsBlock id.data key.data)
      = ks ++ [k])
    (hscan : ∀ t, env.fault t (Op.GetAllMatchingDetails "ComputerSystem" id) = none)
    (hsub : ∀ t key, (env.DeleteEventSubscription t key).subResponse ≠ none
      ∨ (env.DeleteEventSubscription t key).err ≠ none) :
    ∃ last wl,
      deleteCompute env k (LastIndexAny k "/") (deleteComputeRun env ks w.tick)
          = (.returned last, wl)
        ∧ deleteMatchingSystems env url w = (.go last, wl)
        ∧ wl.store.AggregationSource = w.store.AggregationSource := by
  have hret := deleteCompute_returns env k (deleteComputeRun env ks w.tick) hsub
  cases hlast : (deleteCompute env k (LastIndexAny k "/") (deleteComputeRun env ks w.tick)).1 with
  | panicked => exact (hret hlast).elim
  | returned last =>
    refine ⟨last, (deleteCompute env k (LastIndexAny k "/") (deleteComputeRun env ks w.tick)).2,
      ?_, ?_, by simp⟩
    · rw [← hlast]
    · unfold deleteMatchingSystems
      simp only [hid, GetAllMatchingDetails, hscan, Store.keysOf, if_true, hkeys,
        deleteComputeEach_last env ks k RPC.zero w.tick hsub, hlast]

theorem finishDeleteAggregationSource_last (env : Env) (reqURL : String) (last : RPC)
    (w : World) (src : AggregationSource)
    (hdel : ∀ t, env.fault t (Op.DeleteAggregationSource reqURL) = none)
    (hsrc : w.store.AggregationSource.get reqURL = some src) :
    ((finishDeleteAggregationSource env reqURL last w).2.store.AggregationSource.get reqURL = none
        ↔ last.StatusCode = StatusOK)
      ∧ (last.StatusCode ≠ StatusOK →
          finishDeleteAggregationSource env reqURL last w = (.returned last, w)) := by
  obtain ⟨h1, h2⟩ := agmodelDeleteAggregationSource_done env reqURL w src hdel hsrc
  unfold finishDeleteAggregationSource
  by_cases h : last.StatusCode = StatusOK
  · simp only [h, ne_eq, not_true_eq_false, if_false, h1, h2, IsEmpty.forall_iff, and_self]
  · simp [h, hsrc]

theorem finishWithConnectionMethod_last (env : Env) (url : String) (cm : ConnectionMethod)
    (id : String) (last : RPC) (w : World) (src : AggregationSource)
    (hdel : ∀ t, env.fault t (Op.DeleteAggregationSource url) = none)
    (hsrc : w.store.AggregationSource.get url = some src) :
    ((finishWithConnectionMethod env url cm id last w).2.store.AggregationSource.get url = none
        ↔ last.StatusCode = StatusOK)
      ∧ (last.StatusCode ≠ StatusOK →
          finishWithConnectionMethod env url cm id last w = (.returned last, w)) := by
  obtain ⟨h1, h2⟩ := agmodelDeleteAggregationSource_done env url w src hdel hsrc
  unfold finishWithConnectionMethod
  by_cases h : last.StatusCode = StatusOK
  · simp only [h, ne_eq, not_true_eq_false, if_false, h1, IsEmpty.forall_iff, and_true,
      iff_true]
    split <;> simpa using h2
  · simp [h, hsrc]

/-- Claim C8. Fan-out takes the last result only. For an Unmanaged source, and for a
connection-method-managed source with a target, whose matching compute-system keys are the
non-empty list `ks ++ [k]`: `deleteCompute` runs on every key in list order (the call on the last
key `k` starts in the world `deleteComputeRun env ks w0` left by the calls on `ks`, whatever those
returned); the AggregationSource record is gone after the handler exactly when that last call
returned 200; when the last call fails its response and world are what the handler returns; and
in either case both tiers of compute-system records are left as the last call left them.
The store is taken to carry out the lookups and the delete of the source record, and the
subscription service to hand back a response or an error. -/
theorem DeleteAggregationSource_fanout_last (env : Env) (reqURL id : String) (w : World)
    (src : AggregationSource) (ks : List String) (k : String)
    (hsrc : w.store.AggregationSource.get reqURL = some src)
    (hkind : classify src.Links = some Category.Unmanaged
      ∨ ∃ link cmID cm uuid target,
          classify src.Links = some (Category.ConnectionMethodManaged link)
          ∧ mapGetString link "@odata.id" = some cmID
          ∧ w.store.ConnectionMethod.get cmID = some cm
          ∧ sliceFrom reqURL (LastIndexByte reqURL '/' + 1) = some uuid
          ∧ w.store.System.get uuid = some target
          ∧ env.succeeds [Op.GetConnectionMethod cmID, Op.GetTarget uuid])
    (hid : (Split reqURL "/redfish/v1/AggregationService/AggregationSources/")[1]? = some id)
    (hkeys : w.store.ComputerSystem.filter (fun key => containsBlock id.data key.data)
      = ks ++ [k])
    (hstore : env.succeeds [Op.GetAggregationSourceInfo reqURL,
      Op.GetAllMatchingDetails "ComputerSystem" id, Op.DeleteAggregationSource reqURL])
    (hsub : ∀ t key, (env.DeleteEventSubscription t key).subResponse ≠ none
      ∨ (env.DeleteEventSubscription t key).err ≠ none) :
    ∃ w0 last wl, w0.store = w.store ∧ w0.events = w.events
      ∧ deleteCompute env k (LastIndexAny k "/") (deleteComputeRun env ks w0)
          = (.returned last, wl)
      ∧ ((DeleteAggregationSource env reqURL w).2.store.AggregationSource.get reqURL = none
          ↔ last.StatusCode = StatusOK)
      ∧ (last.StatusCode ≠ StatusOK →
          DeleteAggregationSource env reqURL w = (.returned last, wl))
      ∧ (DeleteAggregationSource env reqURL w).2.store.ComputerSystem = wl.store.ComputerSystem
      ∧ (DeleteAggregationSource env reqURL w).2.store.System = wl.store.System := by
  have h1 : ∀ t, env.fault t (Op.GetAggregationSourceInfo reqURL) = none :=
    fun t => hstore t _ (by simp)
  have h2 : ∀ t, env.fault t (Op.GetAllMatchingDetails "ComputerSystem" id) = none :=
    fun t => hstore t _ (by simp)
  have h3 : ∀ t, env.fault t (Op.DeleteAggregationSource reqURL) = none :=
    fun t => hstore t _ (by simp)
  rw [DeleteAggregationSource_eq, GetAggregationSourceInfo_found env reqURL w src (h1 _) hsrc]
  rcases hkind with hkind | ⟨link, cmID, cm, uuid, target, hkind, hlink, hcm, huuid, htarget, hs⟩
  · obtain ⟨last, wl, hlast, hfan, hframe⟩ :=
      deleteMatchingSystems_last env reqURL id ks k w.tick hid (by simpa using hkeys) h2 hsub
    have hsrcl : wl.store.AggregationSource.get reqURL = some src := by
      rw [hframe]; simpa using hsrc
    refine ⟨w.tick.tick, last, wl, rfl, rfl, hlast, ?_⟩
    simp only [hkind, hfan]
    exact ⟨(finishDeleteAggregationSource_last env reqURL last wl src h3 hsrcl).1,
      (finishDeleteAggregationSource_last env reqURL last wl src h3 hsrcl).2,
      finishDeleteAggregationSource_tiers env reqURL last wl⟩
  · have h4 : ∀ t, env.fault t (Op.GetConnectionMethod cmID) = none := fun t => hs t _ (by simp)
    have h5 : ∀ t, env.fault t (Op.GetTarget uuid) = none := fun t => hs t _ (by simp)
    obtain ⟨last, wl, hlast, hfan, hframe⟩ :=
      deleteMatchingSystems_last env reqURL id ks k w.tick.tick.tick hid (by simpa using hkeys)
        h2 hsub
    have hsrcl : wl.store.AggregationSource.get reqURL = some src := by
      rw [hframe]; simpa using hsrc
    refine ⟨w.tick.tick.tick.tick, last, wl, rfl, rfl, hlast, ?_⟩
    simp only [hkind, deleteAggregationSourceWithConnectionMethod, hlink, GetConnectionMethod,
      h4, World.tick_store, hcm, huuid, GetTarget, h5, htarget, hfan]
    exact ⟨(finishWithConnectionMethod_last env reqURL cm cmID last wl src h3 hsrcl).1,
      (finishWithConnectionMethod_last env reqURL cm cmID last wl src h3 hsrcl).2,
      finishWithConnectionMethod_tiers env reqURL cm cmID last wl⟩


/-! ## Keys of the form `<prefix>/<uuid>:<index>` -/

theorem lastIndexFrom_none (chars s : List Char) (i : Nat) (h : ∀ c ∈ s, c ∉ chars) :
    lastIndexFrom chars s i = none := by
  induction s generalizing i with
  | nil => rfl
  | cons c cs ih =>
    unfold lastIndexFrom
    rw [ih (i + 1) (fun d hd => h d (List.mem_cons_of_mem _ hd))]
    simp [h c (List.mem_cons_self _ _)]

theorem lastIndexFrom_append (chars pre tail : List Char) (c : Char) (i : Nat)
    (hc : c ∈ chars) (h : ∀ d ∈ tail, d ∉ chars) :
    lastIndexFrom chars (pre ++ c :: tail) i = some (i + pre.length) := by
  induction pre generalizing i with
  | nil =>
    simp only [List.nil_append, lastIndexFrom, lastIndexFrom_none chars tail (i + 1) h, hc,
      if_true, List.length_nil, Nat.add_zero]
  | cons p pre ih =>
    simp only [List.cons_append, lastIndexFrom, List.append_eq, ih (i + 1), List.length_cons,
      Option.some.injEq]
    omega

theorem splitGo_colon (uuid rest acc : List Char) (h : ':' ∉ uuid) :
    splitGo [':'] (uuid ++ ':' :: rest) 0 acc
      = ⟨acc.reverse ++ uuid⟩ :: splitGo [':'] rest 0 [] := by
  induction uuid generalizing acc with
  | nil => simp [splitGo, List.isPrefixOf]
  | cons c cs ih =>
    have hc : c ≠ ':' := fun hc => h (hc ▸ List.mem_cons_self _ _)
    have hcs : ':' ∉ cs := fun hcs => h (List.mem_cons_of_mem _ hcs)
    have hb : (':' == c) = false := by simpa using hc.symm
    simp only [List.cons_append, splitGo, List.isPrefixOf, hb, Bool.false_and,
      Bool.false_eq_true, if_false, List.append_eq, ih (c :: acc) hcs, List.reverse_cons,
      List.append_assoc, List.singleton_append, List.nil_append]

theorem splitGo_ne_nil (sep s : List Char) (skip : Nat) (acc : List Char) :
    splitGo sep s skip acc ≠ [] := by
  induction s generalizing skip acc with
  | nil => simp [splitGo]
  | cons c cs ih =>
    cases skip with
    | zero =>
      unfold splitGo
      split
      · simp
      · exact ih _ _
    | succ n =>
      unfold splitGo
      exact ih _ _

/-- For `key = <prefix>/<uuid>:<index>`, the piece after the last slash is `<uuid>:<index>`. -/
theorem sliceFrom_key (pre uuid idx : String) (hu : '/' ∉ uuid.data) (hi : '/' ∉ idx.data) :
    sliceFrom (pre ++ "/" ++ uuid ++ ":" ++ idx)
        (LastIndexAny (pre ++ "/" ++ uuid ++ ":" ++ idx) "/" + 1)
      = some (uuid ++ ":" ++ idx) := by
  have hdata : (pre ++ "/" ++ uuid ++ ":" ++ idx).data
      = pre.data ++ '/' :: (uuid.data ++ ':' :: idx.data) := by
    simp [String.data_append]
  have htail : ∀ d ∈ uuid.data ++ ':' :: idx.data, d ∉ ['/'] := by
    intro d hd
    simp only [List.mem_append, List.mem_cons] at hd
    simp only [List.mem_singleton]
    rintro rfl
    rcases hd with hd | hd | hd
    · exact hu hd
    · exact absurd hd (by decide)
    · exact hi hd
  unfold sliceFrom LastIndexAny
  have hsl : ("/" : String).data = ['/'] := rfl
  rw [hdata, hsl, lastIndexFrom_append ['/'] pre.data _ '/' 0 (by simp) htail]
  simp only [Nat.zero_add]
  rw [if_pos (by constructor <;> simp <;> omega)]
  congr 1
  apply String.ext
  have : ((pre.data.length : Int) + 1).toNat = pre.data.length + 1 := by omega
  rw [this, List.drop_append]
  simp [String.data_append]

/-- For `rest = <uuid>:<index>`, splitting at ":" gives at least two pieces, the first being
`<uuid>`. -/
theorem Split_key (uuid idx : String) (hu : ':' ∉ uuid.data) :
    2 ≤ (Split (uuid ++ ":" ++ idx) ":").length
      ∧ (Split (uuid ++ ":" ++ idx) ":").headD "" = uuid := by
  have hdata : (uuid ++ ":" ++ idx).data = uuid.data ++ ':' :: idx.data := by
    simp [String.data_append]
  have hsep : (":" : String).data = [':'] := rfl
  unfold Split
  rw [hdata, hsep, splitGo_colon uuid.data idx.data [] hu]
  constructor
  · have := splitGo_ne_nil [':'] idx.data 0 []
    cases hs : splitGo [':'] idx.data 0 [] with
    | nil => exact (this hs).elim
    | cons a l => simp
  · simp

/-! ## Soft failure of the subscription clean-up -/

theorem deleteComputeLocked_soft_fail (env : Env) (key rest uuid : String) (index : Int)
    (w : World) (target : Target)
    (hrest : sliceFrom key (index + 1) = some rest)
    (hcolon : 2 ≤ (Split rest ":").length)
    (huuid : (Split rest ":").headD "" = uuid)
    (hfast : key ∈ w.store.ComputerSystem)
    (hdurable : w.store.System.get uuid = some target)
    (h1 : ∀ t, env.fault t (Op.DeleteComputeSystem index key) = none)
    (h2 : ∀ t, env.fault t (Op.DeleteSystem uuid) = none) :
    ((env.DeleteEventSubscription w.clock key).subResponse ≠ none →
        (deleteComputeLocked env key index w).1
          = .returned ⟨StatusOK, StatusMessage.ResourceRemoved⟩)
      ∧ ((env.DeleteEventSubscription w.clock key).subResponse = none →
          (env.DeleteEventSubscription w.clock key).err ≠ none →
          (deleteComputeLocked env key index w).1
            = .returned ⟨StatusInternalServerError, StatusMessage.InternalError⟩) := by
  have hlen : ¬ (Split rest ":").length < 2 := by omega
  unfold deleteComputeLocked
  simp only [DeleteEventSubscription, hrest, if_neg hlen, huuid]
  constructor
  · intro hresp
    obtain ⟨code, hcode⟩ := Option.ne_none_iff_exists'.1 hresp
    simp [hcode, DeleteComputeSystem, h1, hfast, DeleteSystem, h2, hdurable]
  · intro hresp herr
    obtain ⟨e, he⟩ := Option.ne_none_iff_exists'.1 herr
    simp [hresp, he, GeneralError]

/-- Claim C2, as amended. For every key `<prefix>/<uuid>:<index>` with no lock held, the
lock record written, and the fast-tier and durable-tier deletes succeeding: `deleteCompute`
returns 200 whenever `DeleteEventSubscription` hands back a response, whatever its status code
and whether or not an error comes with it (and whether or not the chassis lookup fails); when
`DeleteEventSubscription` returns an error and no response, `deleteCompute` returns 500
(InternalError). -/
theorem deleteCompute_soft_fail (env : Env) (key pre uuid idx : String) (w : World)
    (target : Target)
    (hkey : key = pre ++ "/" ++ uuid ++ ":" ++ idx)
    (hu1 : '/' ∉ uuid.data) (hu2 : ':' ∉ uuid.data) (hi : '/' ∉ idx.data)
    (hfree : w.store.SystemOperation.get (TrimSuffix key "/") = none)
    (hfast : key ∈ w.store.ComputerSystem)
    (hdurable : w.store.System.get uuid = some target)
    (hstore : env.succeeds [Op.GetSystemOperationInfo (TrimSuffix key "/"),
      Op.AddSystemOperationInfo (TrimSuffix key "/"),
      Op.DeleteComputeSystem (LastIndexAny key "/") key, Op.DeleteSystem uuid]) :
    ((env.DeleteEventSubscription (w.clock + 2) key).subResponse ≠ none →
        (deleteCompute env key (LastIndexAny key "/") w).1
          = .returned ⟨StatusOK, StatusMessage.ResourceRemoved⟩)
      ∧ ((env.DeleteEventSubscription (w.clock + 2) key).subResponse = none →
          (env.DeleteEventSubscription (w.clock + 2) key).err ≠ none →
          (deleteCompute env key (LastIndexAny key "/") w).1
            = .returned ⟨StatusInternalServerError, StatusMessage.InternalError⟩) := by
  have h1 : ∀ t, env.fault t (Op.GetSystemOperationInfo (TrimSuffix key "/")) = none :=
    fun t => hstore t _ (by simp)
  have h2 : ∀ t, env.fault t (Op.AddSystemOperationInfo (TrimSuffix key "/")) = none :=
    fun t => hstore t _ (by simp)
  have h3 : ∀ t, env.fault t (Op.DeleteComputeSystem (LastIndexAny key "/") key) = none :=
    fun t => hstore t _ (by simp)
  have h4 : ∀ t, env.fault t (Op.DeleteSystem uuid) = none := fun t => hstore t _ (by simp)
  have hrest : sliceFrom key (LastIndexAny key "/" + 1) = some (uuid ++ ":" ++ idx) := by
    rw [hkey]; exact sliceFrom_key pre uuid idx hu1 hi
  obtain ⟨hlen, hhead⟩ := Split_key uuid idx hu2
  have hlocked := deleteComputeLocked_soft_fail env key (uuid ++ ":" ++ idx) uuid
    (LastIndexAny key "/")
    { w.tick.tick with store :=
        { w.store with SystemOperation :=
            w.store.SystemOperation.put (TrimSuffix key "/") ⟨"Delete"⟩ } }
    target hrest hlen hhead hfast hdurable h3 h4
  have hrun : (deleteCompute env key (LastIndexAny key "/") w).1
      = (deleteComputeLocked env key (LastIndexAny key "/")
          { w.tick.tick with store :=
            { w.store with SystemOperation :=
                w.store.SystemOperation.put (TrimSuffix key "/") ⟨"Delete"⟩ } }).1 := by
    unfold deleteCompute
    simp [GetSystemOperationInfo, h1, hfree, callErrNo, keyNotFound, AddSystemOperationInfo, h2]
  rw [hrun]
  exact hlocked


/-! ## Concrete runs -/

theorem envQuiet_succeeds (ops : List Op) : envQuiet.succeeds ops := fun _ _ _ => rfl

theorem envAlive_succeeds (ops : List Op) : envAlive.succeeds ops := fun _ _ _ => rfl

/-- Witness of claim C7: deleting a URL that has no record in `worldUnmanaged`. -/
theorem DeleteAggregationSource_absent_witness :
    (DeleteAggregationSource envQuiet urlPlugin worldUnmanaged).1
        = .returned ⟨StatusNotFound, StatusMessage.ResourceNotFound⟩
      ∧ (DeleteAggregationSource envQuiet urlPlugin worldUnmanaged).2.store = worldUnmanaged.store
      ∧ (DeleteAggregationSource envQuiet urlPlugin worldUnmanaged).2.events
          = worldUnmanaged.events :=
  DeleteAggregationSource_absent envQuiet urlPlugin worldUnmanaged
    (keyNotFound "AggregationSource" urlPlugin) rfl rfl

/-- Counterexample to claim C1: with a reset of `ab:1` in progress, `deleteCompute` returns
the "operation already in progress" Conflict (406) and the lock record of that key is still
there after the call. -/
theorem deleteCompute_conflict_keeps_lock :
    (deleteCompute envQuiet keyAB (LastIndexAny keyAB "/") worldLocked).1
        = .returned ⟨StatusNotAcceptable, StatusMessage.ResourceCannotBeDeleted⟩
      ∧ (deleteCompute envQuiet keyAB (LastIndexAny keyAB "/") worldLocked).2.store.SystemOperation.get
          (TrimSuffix keyAB "/") = some ⟨"Reset"⟩ := by
  decide

/-- Witness of claim C1 as amended, one run for each part: (1) `ab:1` carries a lock record
naming no operation and the call succeeds; (2) no lock record and the store fails the write of
the lock record; (3) a reset of `ab:1` is in progress. -/
theorem deleteCompute_releases_lock_witness :
    (deleteCompute envQuiet keyAB (LastIndexAny keyAB "/")
        worldIdleLock).2.store.SystemOperation.get (TrimSuffix keyAB "/") = none
      ∧ (deleteCompute envLockWriteFails keyAB (LastIndexAny keyAB "/")
          worldUnmanaged).2.store.SystemOperation.get (TrimSuffix keyAB "/") = none
      ∧ ((deleteCompute envQuiet keyAB (LastIndexAny keyAB "/") worldTwoSystems).1
            = .returned ⟨StatusNotAcceptable, StatusMessage.ResourceCannotBeDeleted⟩
          ∧ (deleteCompute envQuiet keyAB (LastIndexAny keyAB "/") worldTwoSystems).2.store
              = worldTwoSystems.store
          ∧ (deleteCompute envQuiet keyAB (LastIndexAny keyAB "/")
              worldTwoSystems).2.store.SystemOperation.get (TrimSuffix keyAB "/")
              = some ⟨"Reset"⟩
          ∧ (deleteCompute envQuiet keyAB (LastIndexAny keyAB "/") worldTwoSystems).2.events
              = worldTwoSystems.events) :=
  ⟨(deleteCompute_releases_lock envQuiet keyAB (LastIndexAny keyAB "/") worldIdleLock).1
      (Or.inl ⟨rfl, Or.inr (by decide)⟩) rfl (fun _ => rfl),
    (deleteCompute_releases_lock envLockWriteFails keyAB (LastIndexAny keyAB "/")
      worldUnmanaged).2.1 (by decide) (fun _ => rfl),
    (deleteCompute_releases_lock envQuiet keyAB (LastIndexAny keyAB "/") worldTwoSystems).2.2
      ⟨"Reset"⟩ (by decide) (by decide) rfl⟩

/-- The runs behind the witness of claim C1, evaluated: with a lock record naming no operation
the call returns 200; with the write of the lock record failing it returns 500 and the
compute system is still in the fast tier. -/
theorem deleteCompute_lock_runs :
    (deleteCompute envQuiet keyAB (LastIndexAny keyAB "/") worldIdleLock).1
        = .returned ⟨StatusOK, StatusMessage.ResourceRemoved⟩
      ∧ (deleteCompute envLockWriteFails keyAB (LastIndexAny keyAB "/") worldUnmanaged).1
          = .returned ⟨StatusInternalServerError, StatusMessage.InternalError⟩
      ∧ (deleteCompute envLockWriteFails keyAB (LastIndexAny keyAB "/")
          worldUnmanaged).2.store.ComputerSystem = [keyAB] := by
  decide

/-- Counterexample to claim C2: no lock is held on `ab:1`, the fast-tier and the durable-tier
deletes both succeed on this store, and `DeleteEventSubscription` returns an error and no
response; `deleteCompute` returns 500 (InternalError), not 200. -/
theorem deleteCompute_subscription_error_aborts :
    worldUnmanaged.store.SystemOperation.get (TrimSuffix keyAB "/") = none
      ∧ (DeleteComputeSystem envNoSubscriptionService (LastIndexAny keyAB "/") keyAB
          worldUnmanaged).1 = none
      ∧ (DeleteSystem envNoSubscriptionService "ab" worldUnmanaged).1 = none
      ∧ (deleteCompute envNoSubscriptionService keyAB (LastIndexAny keyAB "/") worldUnmanaged).1
          = .returned ⟨StatusInternalServerError, StatusMessage.InternalError⟩ := by
  decide

/-- Witness of claim C2 as amended, on the key `/redfish/v1/Systems` / `ab` : `1`, one run for
each kind of answer of `DeleteEventSubscription`: a response with status 500 and no error, and
a response with status 500 together with an error, are tolerated (200); an error with no
response aborts (500). -/
theorem deleteCompute_soft_fail_witness :
    (deleteCompute envSubscriptionStatus500 keyAB (LastIndexAny keyAB "/") worldUnmanaged).1
        = .returned ⟨StatusOK, StatusMessage.ResourceRemoved⟩
      ∧ (deleteCompute envSubscriptionErrorAndResponse keyAB (LastIndexAny keyAB "/")
          worldUnmanaged).1 = .returned ⟨StatusOK, StatusMessage.ResourceRemoved⟩
      ∧ (deleteCompute envNoSubscriptionService keyAB (LastIndexAny keyAB "/")
          worldUnmanaged).1
          = .returned ⟨StatusInternalServerError, StatusMessage.InternalError⟩ :=
  ⟨(deleteCompute_soft_fail envSubscriptionStatus500 keyAB "/redfish/v1/Systems" "ab" "1"
      worldUnmanaged ⟨"ab", "GRF"⟩ (by decide) (by decide) (by decide) (by decide) (by decide)
      (by decide) (by decide) (fun _ _ _ => rfl)).1 (by decide),
    (deleteCompute_soft_fail envSubscriptionErrorAndResponse keyAB "/redfish/v1/Systems" "ab"
      "1" worldUnmanaged ⟨"ab", "GRF"⟩ (by decide) (by decide) (by decide) (by decide)
      (by decide) (by decide) (by decide) (fun _ _ _ => rfl)).1 (by decide),
    (deleteCompute_soft_fail envNoSubscriptionService keyAB "/redfish/v1/Systems" "ab" "1"
      worldUnmanaged ⟨"ab", "GRF"⟩ (by decide) (by decide) (by decide) (by decide) (by decide)
      (by decide) (by decide) (fun _ _ _ => rfl)).2 (by decide) (by decide)⟩

/-- The tolerated runs behind the witness of claim C2, evaluated in full: the compute system
is deleted from both tiers, the chassis and system notifications are emitted and the lock is
released, although the subscription service answered 500 with an error. -/
theorem deleteCompute_soft_fail_run :
    (deleteCompute envSubscriptionErrorAndResponse keyAB (LastIndexAny keyAB "/")
        worldUnmanaged).2.store.ComputerSystem = []
      ∧ (deleteCompute envSubscriptionErrorAndResponse keyAB (LastIndexAny keyAB "/")
          worldUnmanaged).2.store.System = []
      ∧ (deleteCompute envSubscriptionErrorAndResponse keyAB (LastIndexAny keyAB "/")
          worldUnmanaged).2.store.SystemOperation = []
      ∧ (deleteCompute envSubscriptionErrorAndResponse keyAB (LastIndexAny keyAB "/")
          worldUnmanaged).2.events
          = [⟨"/redfish/v1/Chassis/ab:1", "ResourceRemoved", "ChassisCollection"⟩,
             ⟨keyAB, "ResourceRemoved", "SystemsCollection"⟩] := by
  decide

/-- Witness of claim C5: the plugin of source `p1` answers the probe. -/
theorem DeleteAggregationSource_plugin_alive_witness :
    (DeleteAggregationSource envAlive urlPlugin worldPlugin).1
        = .returned ⟨StatusNotAcceptable, StatusMessage.ResourceCannotBeDeleted⟩
      ∧ (DeleteAggregationSource envAlive urlPlugin worldPlugin).2.store = worldPlugin.store
      ∧ (DeleteAggregationSource envAlive urlPlugin worldPlugin).2.events = worldPlugin.events :=
  DeleteAggregationSource_plugin_alive envAlive urlPlugin worldPlugin
    ⟨"grf", "admin",
      .obj [("Oem", .obj [("PluginType", .str "Compute"), ("PluginID", .str "GRF")])]⟩
    "GRF" ⟨"GRF", "m1", "admin", "secret"⟩ (.obj [("Name", .str "GRF")])
    rfl rfl rfl rfl rfl (envAlive_succeeds _) (fun _ => rfl)

/-- Witness of claim C6: the plugin of source `p1` is unreachable and manages no system. -/
theorem DeleteAggregationSource_plugin_removed_witness :
    (DeleteAggregationSource envQuiet urlPlugin worldPlugin).1
        = .returned ⟨StatusNoContent, StatusMessage.ResourceRemoved⟩
      ∧ (DeleteAggregationSource envQuiet urlPlugin worldPlugin).2.store =
          { worldPlugin.store with
            Managers := worldPlugin.store.Managers.del ("/redfish/v1/Managers/" ++ "m1")
            Plugin := worldPlugin.store.Plugin.del "GRF"
            AggregationSource := worldPlugin.store.AggregationSource.del urlPlugin }
      ∧ (DeleteAggregationSource envQuiet urlPlugin worldPlugin).2.store.Managers.get
          ("/redfish/v1/Managers/" ++ "m1") = none
      ∧ (DeleteAggregationSource envQuiet urlPlugin worldPlugin).2.store.Plugin.get "GRF" = none
      ∧ (DeleteAggregationSource envQuiet urlPlugin worldPlugin).2.store.AggregationSource.get
          urlPlugin = none
      ∧ (DeleteAggregationSource envQuiet urlPlugin worldPlugin).2.events =
          worldPlugin.events ++ [⟨"/redfish/v1/Managers/" ++ "m1", "ResourceRemoved",
            "ManagerCollection"⟩] :=
  DeleteAggregationSource_plugin_removed envQuiet urlPlugin worldPlugin
    ⟨"grf", "admin",
      .obj [("Oem", .obj [("PluginType", .str "Compute"), ("PluginID", .str "GRF")])]⟩
    "GRF" ⟨"GRF", "m1", "admin", "secret"⟩ (.obj [("Name", .str "GRF")])
    rfl rfl rfl rfl rfl (by decide) (fun _ => by simp [envQuiet]) (envQuiet_succeeds _)

/-- Witness of claim C10: the connection-method-managed source `ab` is deleted twice. -/
theorem DeleteAggregationSource_twice_witness :
    (DeleteAggregationSource envQuiet urlAB
        (DeleteAggregationSource envQuiet urlAB worldConnectionMethod).2).1
      = .returned ⟨StatusNotFound, StatusMessage.ResourceNotFound⟩ :=
  DeleteAggregationSource_twice envQuiet envQuiet urlAB worldConnectionMethod
    ⟨StatusNoContent, StatusMessage.ResourceRemoved⟩ (by decide) rfl rfl

/-- Witness of claim C9: the connection-method-managed source `ab` is deleted; its connection
method also backs the source `cd`. -/
theorem DeleteAggregationSource_backreference_witness :
    (∀ (slice : List OdataID) (element : OdataID),
        removeAggregationSource slice element = slice.filter (fun val => val ≠ element))
      ∧ ∃ cm, worldConnectionMethod.store.ConnectionMethod.get connectionMethodID = some cm
        ∧ (DeleteAggregationSource envQuiet urlAB
            worldConnectionMethod).2.store.ConnectionMethod.get connectionMethodID
            = some { cm with AggregationSources :=
                cm.AggregationSources.filter (fun val => val ≠ ⟨urlAB⟩) }
        ∧ (⟨urlAB⟩ : OdataID) ∉ cm.AggregationSources.filter (fun val => val ≠ ⟨urlAB⟩) :=
  DeleteAggregationSource_backreference envQuiet urlAB worldConnectionMethod
    ⟨"10.0.0.1", "admin",
      .obj [("ConnectionMethod", .obj [("@odata.id", .str connectionMethodID)])]⟩
    [("@odata.id", .str connectionMethodID)] connectionMethodID
    ⟨StatusNoContent, StatusMessage.ResourceRemoved⟩ rfl rfl rfl (by decide) rfl

/-- Witness of claim C8: the Unmanaged source `ab` has the two compute systems `ab:1`
(locked by a reset in progress) and `ab:2`. -/
theorem DeleteAggregationSource_fanout_last_witness :
    ∃ w0 last wl, w0.store = worldTwoSystems.store
      ∧ w0.events = worldTwoSystems.events
      ∧ deleteCompute envQuiet keyAB2 (LastIndexAny keyAB2 "/")
          (deleteComputeRun envQuiet [keyAB] w0) = (.returned last, wl)
      ∧ ((DeleteAggregationSource envQuiet urlAB
            worldTwoSystems).2.store.AggregationSource.get urlAB = none
          ↔ last.StatusCode = StatusOK)
      ∧ (last.StatusCode ≠ StatusOK →
          DeleteAggregationSource envQuiet urlAB worldTwoSystems = (.returned last, wl))
      ∧ (DeleteAggregationSource envQuiet urlAB worldTwoSystems).2.store.ComputerSystem
          = wl.store.ComputerSystem
      ∧ (DeleteAggregationSource envQuiet urlAB worldTwoSystems).2.store.System
          = wl.store.System :=
  DeleteAggregationSource_fanout_last envQuiet urlAB "ab" worldTwoSystems
    ⟨"10.0.0.1", "admin", .obj [("Oem", .obj [])]⟩
    [keyAB] keyAB2 rfl (Or.inl rfl)
    (by decide) (by decide) (envQuiet_succeeds _) (fun _ _ => Or.inl (by simp [envQuiet]))

/-- The run behind the witness of claim C8, evaluated: the call on `ab:1` ends in Conflict
(406), the call on the last key `ab:2` succeeds, the handler returns 204 and `ab:1` is still in
the fast tier. -/
theorem DeleteAggregationSource_first_conflict_last_ok :
    (deleteCompute envQuiet keyAB (LastIndexAny keyAB "/") worldTwoSystems.tick.tick).1
        = .returned ⟨StatusNotAcceptable, StatusMessage.ResourceCannotBeDeleted⟩
      ∧ (DeleteAggregationSource envQuiet urlAB worldTwoSystems).1
          = .returned ⟨StatusNoContent, StatusMessage.ResourceRemoved⟩
      ∧ (DeleteAggregationSource envQuiet urlAB worldTwoSystems).2.store.ComputerSystem
          = [keyAB] := by
  decide

/-- Claim C3, evaluated where it breaks. For an Unmanaged source, and for a
connection-method-managed source with a target, whose list of matching compute-system keys is
empty, `DeleteAggregationSource` returns the zero-valued response: status code 0, which is none
of 204, 404, 406, 500. Nothing is deleted. -/
theorem DeleteAggregationSource_empty_fanout (env : Env) (reqURL id : String) (w : World)
    (src : AggregationSource)
    (hsrc : w.store.AggregationSource.get reqURL = some src)
    (hkind : classify src.Links = some Category.Unmanaged
      ∨ ∃ link cmID cm uuid target,
          classify src.Links = some (Category.ConnectionMethodManaged link)
          ∧ mapGetString link "@odata.id" = some cmID
          ∧ w.store.ConnectionMethod.get cmID = some cm
          ∧ sliceFrom reqURL (LastIndexByte reqURL '/' + 1) = some uuid
          ∧ w.store.System.get uuid = some target
          ∧ env.succeeds [Op.GetConnectionMethod cmID, Op.GetTarget uuid])
    (hid : (Split reqURL "/redfish/v1/AggregationService/AggregationSources/")[1]? = some id)
    (hkeys : w.store.ComputerSystem.filter (fun key => containsBlock id.data key.data) = [])
    (hstore : env.succeeds [Op.GetAggregationSourceInfo reqURL,
      Op.GetAllMatchingDetails "ComputerSystem" id]) :
    (DeleteAggregationSource env reqURL w).1 = .returned ⟨0, StatusMessage.none⟩
      ∧ (0 : Nat) ∉ [StatusNoContent, StatusNotFound, StatusNotAcceptable,
          StatusInternalServerError]
      ∧ (DeleteAggregationSource env reqURL w).2.store = w.store := by
  have h1 : ∀ t, env.fault t (Op.GetAggregationSourceInfo reqURL) = none :=
    fun t => hstore t _ (by simp)
  have h2 : ∀ t, env.fault t (Op.GetAllMatchingDetails "ComputerSystem" id) = none :=
    fun t => hstore t _ (by simp)
  rw [DeleteAggregationSource_eq, GetAggregationSourceInfo_found env reqURL w src (h1 _) hsrc]
  refine ⟨?_, by decide, ?_⟩
  all_goals
    rcases hkind with hkind | ⟨link, cmID, cm, uuid, target, hkind, hlink, hcm, huuid, htarget, hs⟩
  all_goals
    simp [hkind, deleteMatchingSystems, hid, GetAllMatchingDetails, h2, Store.keysOf, hkeys,
      deleteComputeEach, finishDeleteAggregationSource, RPC.zero, StatusOK]
  all_goals
    have h4 : ∀ t, env.fault t (Op.GetConnectionMethod cmID) = none := fun t => hs t _ (by simp)
    have h5 : ∀ t, env.fault t (Op.GetTarget uuid) = none := fun t => hs t _ (by simp)
    simp [deleteAggregationSourceWithConnectionMethod, hlink, GetConnectionMethod,
      h4, hcm, huuid, GetTarget, h5, htarget, deleteMatchingSystems, hid, GetAllMatchingDetails,
      h2, Store.keysOf, hkeys, deleteComputeEach, finishWithConnectionMethod, RPC.zero, StatusOK]

/-- Witness of claim C3: the Unmanaged source `ab` has no compute system left. -/
theorem DeleteAggregationSource_empty_fanout_witness :
    (DeleteAggregationSource envQuiet urlAB worldNoSystems).1
        = .returned ⟨0, StatusMessage.none⟩
      ∧ (0 : Nat) ∉ [StatusNoContent, StatusNotFound, StatusNotAcceptable,
          StatusInternalServerError]
      ∧ (DeleteAggregationSource envQuiet urlAB worldNoSystems).2.store = worldNoSystems.store :=
  DeleteAggregationSource_empty_fanout envQuiet urlAB "ab" worldNoSystems
    ⟨"10.0.0.1", "admin", .obj [("Oem", .obj [])]⟩ rfl (Or.inl rfl) (by decide) (by decide)
    (envQuiet_succeeds _)

/-- Claim C4, evaluated where it breaks. In `deletePlugin`, once the Manager and Plugin
records were fetched, no system references the plugin and the liveness probe failed: when the
delete of the Manager record fails, or that delete succeeds and the delete of the Plugin record
fails, `deletePlugin` reads the message of the nil `derr` and panics, whatever the store error
was; it returns neither 404 nor 500. -/
theorem deletePlugin_delete_failure_panics (env : Env) (oid pluginID : String) (w : World)
    (manager : Value) (plugin : Plugin)
    (hmanager : w.store.Managers.get oid = some manager)
    (hname : managerName manager = some pluginID)
    (hplugin : w.store.Plugin.get pluginID = some plugin)
    (hnone : ∀ p ∈ w.store.System, p.2.PluginID ≠ pluginID)
    (hdown : ∀ t, env.contactPlugin t plugin ≠ none)
    (hstore : env.succeeds [Op.GetResource "Managers" oid, Op.GetPluginData pluginID,
      Op.GetAllSystems])
    (hfail : (∀ t, env.fault t (Op.DeleteManagersData oid) ≠ none)
      ∨ ((∀ t, env.fault t (Op.DeleteManagersData oid) = none)
        ∧ ∀ t, env.fault t (Op.DeletePluginData pluginID) ≠ none)) :
    (deletePlugin env oid w).1 = .panicked := by
  have h2 : ∀ t, env.fault t (Op.GetPluginData pluginID) = none := fun t => hstore t _ (by simp)
  have h3 : ∀ t, env.fault t (Op.GetResource "Managers" oid) = none :=
    fun t => hstore t _ (by simp)
  have h4 : ∀ t, env.fault t Op.GetAllSystems = none := fun t => hstore t _ (by simp)
  have hcnt : ¬ List.countP (fun t => decide (t.PluginID = pluginID))
      (List.map (fun p => p.2) w.store.System) > 0 := by
    simp only [gt_iff_lt, List.countP_pos_iff, not_exists, not_and]
    intro t ht
    obtain ⟨p, hp, rfl⟩ := List.mem_map.1 ht
    simpa using hnone p hp
  unfold managerName at hname
  obtain ⟨err, herr⟩ : ∃ err, env.contactPlugin (w.clock + 1 + 1 + 1) plugin = some err :=
    Option.ne_none_iff_exists'.1 (hdown _)
  simp only [deletePlugin, GetPluginData, GetResource, GetAllSystems, h2, h3, h4,
    World.tick_clock, World.tick_store, hplugin, hmanager, hname, contactPlugin, if_neg hcnt,
    herr]
  rcases hfail with hf | ⟨hf1, hf2⟩
  · obtain ⟨e, he⟩ := Option.ne_none_iff_exists'.1 (hf (w.clock + 1 + 1 + 1 + 1))
    simp [DeleteManagersData, he, errorResponse, callError]
  · obtain ⟨e, he⟩ := Option.ne_none_iff_exists'.1 (hf2 (w.clock + 1 + 1 + 1 + 1 + 1))
    simp [DeleteManagersData, hf1, hmanager, DeletePluginData, he, errorResponse, callError]

/-- Witness of claim C4: the delete of the Manager record fails with "key not found". -/
theorem deletePlugin_delete_failure_panics_witness :
    (deletePlugin (envManagerDeleteFails ⟨ErrType.DBKeyNotFound, "no data found"⟩)
      "/redfish/v1/Managers/m1" worldPlugin).1 = .panicked :=
  deletePlugin_delete_failure_panics (envManagerDeleteFails ⟨ErrType.DBKeyNotFound, "no data found"⟩)
    "/redfish/v1/Managers/m1" "GRF" worldPlugin (.obj [("Name", .str "GRF")])
    ⟨"GRF", "m1", "admin", "secret"⟩ rfl rfl rfl (by decide)
    (fun _ => by simp [envManagerDeleteFails, envQuiet]) (fun _ op hop => by
      simp only [List.mem_cons, List.mem_singleton, List.not_mem_nil, or_false] at hop
      rcases hop with rfl | rfl | rfl <;> rfl) (Or.inl (fun _ => by simp [envManagerDeleteFails]))


/-- Further runs behind claim C4, evaluated: the delete of the Manager record failing with a
connection error, and the delete of the Plugin record failing with "key not found" (the Manager
record is gone by then), both end in the panic. -/
theorem deletePlugin_delete_failure_runs :
    (deletePlugin (envManagerDeleteFails ⟨ErrType.DBConnFailed, "connection lost"⟩)
        "/redfish/v1/Managers/m1" worldPlugin).1 = .panicked
      ∧ (deletePlugin (envPluginDeleteFails ⟨ErrType.DBKeyNotFound, "no data found"⟩)
          "/redfish/v1/Managers/m1" worldPlugin).1 = .panicked
      ∧ (deletePlugin (envPluginDeleteFails ⟨ErrType.DBKeyNotFound, "no data found"⟩)
          "/redfish/v1/Managers/m1" worldPlugin).2.store.Managers.length = 0 := by
  decide

/-! ## The status codes of the handler -/

theorem finishDeleteAggregationSource_codes (env : Env) (reqURL : String) (resp : RPC)
    (w : World)
    (h : resp.StatusCode ∈
      [0, StatusOK, StatusNotFound, StatusNotAcceptable, StatusInternalServerError]) :
    (finishDeleteAggregationSource env reqURL resp w).1.codeIn
      [0, StatusNoContent, StatusNotFound, StatusNotAcceptable, StatusInternalServerError] := by
  unfold finishDeleteAggregationSource
  dsimp only
  repeat' split
  · rename_i hne
    simp only [Result.codeIn, List.mem_cons, List.mem_singleton, List.not_mem_nil,
      or_false] at h ⊢
    rcases h with h | h | h | h | h
    · exact Or.inl h
    · exact (hne h).elim
    · exact Or.inr (Or.inr (Or.inl h))
    · exact Or.inr (Or.inr (Or.inr (Or.inl h)))
    · exact Or.inr (Or.inr (Or.inr (Or.inr h)))
  · simp [Result.codeIn, CreateInternalErrorResponse]
  · simp [Result.codeIn]

theorem finishWithConnectionMethod_codes (env : Env) (url : String) (cm : ConnectionMethod)
    (id : String) (resp : RPC) (w : World)
    (h : resp.StatusCode ∈
      [0, StatusOK, StatusNotFound, StatusNotAcceptable, StatusInternalServerError]) :
    (finishWithConnectionMethod env url cm id resp w).1.codeIn
      [0, StatusNoContent, StatusNotFound, StatusNotAcceptable, StatusInternalServerError] := by
  unfold finishWithConnectionMethod
  dsimp only
  repeat' split
  · rename_i hne
    simp only [Result.codeIn, List.mem_cons, List.mem_singleton, List.not_mem_nil,
      or_false] at h ⊢
    rcases h with h | h | h | h | h
    · exact Or.inl h
    · exact (hne h).elim
    · exact Or.inr (Or.inr (Or.inl h))
    · exact Or.inr (Or.inr (Or.inr (Or.inl h)))
    · exact Or.inr (Or.inr (Or.inr (Or.inr h)))
  · simp [Result.codeIn, CreateInternalErrorResponse]
  · simp [Result.codeIn, GeneralError]
  · simp [Result.codeIn]

theorem deletePluginOf_ret (env : Env) (pluginID : String) (w : World) (r : Result)
    (h : (deletePluginOf env pluginID w).1 = .ret r) :
    r.codeIn
      [0, StatusNoContent, StatusNotFound, StatusNotAcceptable, StatusInternalServerError] := by
  revert h
  unfold deletePluginOf
  dsimp only
  repeat' split
  all_goals intro h
  all_goals simp only [Flow.ret.injEq, reduceCtorEq] at h
  all_goals subst h
  · simp [Result.codeIn, GeneralError]
  · trivial

theorem deleteMatchingSystems_ret (env : Env) (url : String) (w : World) (r : Result)
    (h : (deleteMatchingSystems env url w).1 = .ret r) :
    r.codeIn
      [0, StatusNoContent, StatusNotFound, StatusNotAcceptable, StatusInternalServerError] := by
  revert h
  unfold deleteMatchingSystems
  dsimp only
  repeat' split
  all_goals intro h
  all_goals simp only [Flow.ret.injEq, reduceCtorEq] at h
  all_goals subst h
  · trivial
  · exact Result.codeIn_mono (errorResponse_some _) (by simp)
  · trivial

theorem deleteAggregationSourceWithConnectionMethod_codes (env : Env) (url : String)
    (link : List (String × Value)) (w : World) :
    (deleteAggregationSourceWithConnectionMethod env url link w).1.codeIn
      [0, StatusNoContent, StatusNotFound, StatusNotAcceptable, StatusInternalServerError] := by
  unfold deleteAggregationSourceWithConnectionMethod
  dsimp only
  repeat' split
  all_goals first
    | trivial
    | exact Result.codeIn_mono (errorResponse_some _) (by simp)
    | (rename_i heq; exact deletePluginOf_ret _ _ _ _ heq)
    | (rename_i heq; exact deleteMatchingSystems_ret _ _ _ _ heq)
    | (rename_i heq
       exact finishWithConnectionMethod_codes _ _ _ _ _ _
        (Flow.go_codes (deletePluginOf_codes _ _ _) heq))
    | (rename_i heq
       exact finishWithConnectionMethod_codes _ _ _ _ _ _
        (Flow.go_codes (deleteMatchingSystems_codes _ _ _) heq))
    | simp [Result.codeIn, GeneralError]

/-- What does hold of the status codes (compare claim C3): whenever `DeleteAggregationSource`
returns, the status code is one of 0, 204, 404, 406, 500. -/
theorem DeleteAggregationSource_codes (env : Env) (reqURL : String) (w : World) :
    (DeleteAggregationSource env reqURL w).1.codeIn
      [0, StatusNoContent, StatusNotFound, StatusNotAcceptable, StatusInternalServerError] := by
  unfold DeleteAggregationSource
  dsimp only
  repeat' split
  all_goals first
    | trivial
    | exact Result.codeIn_mono (errorResponse_some _) (by simp)
    | exact deleteAggregationSourceWithConnectionMethod_codes _ _ _ _
    | (rename_i heq; exact deletePluginOf_ret _ _ _ _ heq)
    | (rename_i heq; exact deleteMatchingSystems_ret _ _ _ _ heq)
    | (rename_i heq
       exact finishDeleteAggregationSource_codes _ _ _ _
        (Flow.go_codes (deletePluginOf_codes _ _ _) heq))
    | (rename_i heq
       exact finishDeleteAggregationSource_codes _ _ _ _
        (Flow.go_codes (deleteMatchingSystems_codes _ _ _) heq))

end ODIM
